import Mathlib

/-!
Shallow embedding of the moteus BLDC servo interrupt control loop
(`src/moteus/bldc_servo.cc`), together with theorems checking the
natural-language specification against it.

Modelling conventions:
* machine integers are `Nat`/`Int` with explicit reductions mod 2^16
  where the C code truncates or wraps;
* `float` arithmetic is embedded as exact rational arithmetic over `ℚ`;
* the transcendental ingredients (sin, cos, sqrt 3, the float constant
  `k2Pi`) are abstracted into a `TrigModel` parameter, since no claim
  depends on their values;
* hardware register writes and motor-driver calls are recorded both as
  mirror fields of the machine state and as an explicit `Effect` trace;
* values read from the environment in one ISR cycle (ADC means, the
  position sample, the driver fault flag) are inputs of the step
  functions.
-/

namespace BldcServo

/-- Controller modes, `BldcServo::Mode` (the `kNumModes` sentinel is omitted:
it is never a state). -/
inductive Mode
  | stopped
  | fault
  | enabling
  | calibrating
  | calibrationComplete
  | pwm
  | voltage
  | voltageFoc
  | current
  | position
deriving DecidableEq

/-- Fault codes (`errc`), from the spec's error table; the enum's header is
not under src/. -/
inductive Errc
  | success
  | encoderFault
  | motorDriverFault
  | overVoltage
  | calibrationFault
deriving DecidableEq

/-- A hardware side effect performed by the ISR or the foreground poller:
a PWM compare-register write, or a motor-driver `Power`/`Enable` call. -/
inductive Effect
  | ccr1 (v : ℕ)
  | ccr2 (v : ℕ)
  | ccr3 (v : ℕ)
  | power (b : Bool)
  | enable (b : Bool)
deriving DecidableEq

/-- Three phase values (`Vec3` of floats, embedded as rationals). -/
structure Vec3 where
  a : ℚ
  b : ℚ
  c : ℚ
deriving DecidableEq

def Vec3.zero : Vec3 := ⟨0, 0, 0⟩

/-- Abstraction of the transcendental constants and functions used by the
control math (`sinf`/`cosf`, `sqrt 3`, the float constant `k2Pi`).  No claim
depends on their values, so the model is parameterised over them. -/
structure TrigModel where
  two_pi : ℚ
  sin : ℚ → ℚ
  cos : ℚ → ℚ
  sqrt3 : ℚ

/-- A precomputed sine/cosine pair (`SinCos`). -/
structure SinCos where
  s : ℚ
  c : ℚ
deriving DecidableEq

/-- `Limit` of bldc_servo.cc: clamp `a` into `[mn, mx]`. -/
def Limit (a mn mx : ℚ) : ℚ :=
  if a < mn then mn else if a > mx then mx else a

/-- `LimitPwm`: clamp a duty ratio to `[0.1, 0.9]`. -/
def LimitPwm (x : ℚ) : ℚ := Limit x (1/10) (9/10)

/-- `kPwmCounts = 90000000 / 80000 = 1125`. -/
def kPwmCounts : ℕ := 90000000 / 80000

/-- `kCalibrateCount = 256`. -/
def kCalibrateCount : ℕ := 256

/-- `kMaxPositionDelta = 1000`. -/
def kMaxPositionDelta : ℤ := 1000

/-- `kRateHz = 40000`. -/
def kRateHz : ℚ := 40000

/-- Truncation toward zero of a rational, as C float-to-integer conversion
and `fmodf` do. -/
def rtrunc (x : ℚ) : ℤ := if 0 ≤ x then ⌊x⌋ else -⌊-x⌋

/-- `fmodf (x, 1.0f)`: remainder of x by 1 with the sign of x. -/
def fmod1 (x : ℚ) : ℚ := x - rtrunc x

/-- `static_cast<uint16_t>` of a float value: truncate toward zero, reduce
mod 2^16 (the in-range uses below never hit the reduction). -/
def qToU16 (x : ℚ) : ℕ := (rtrunc x).toNat % 65536

/-- Reinterpret an integer as a signed 16-bit quantity
(`static_cast<int16_t>` of a `uint16_t` difference). -/
def toInt16 (z : ℤ) : ℤ :=
  let m := z % 65536
  if m < 32768 then m else m - 65536

/-- PID gains.  Modelled from the spec: `mjlib::base::PID`'s configuration is
not under src/; §4.2 names kp, ki, kd, a symmetric integral limit and an
output (command) limit. -/
structure PidConfig where
  kp : ℚ
  ki : ℚ
  kd : ℚ
  ilimit : ℚ
  cmd_limit : ℚ
deriving DecidableEq

/-- PID telemetry state (p, integral, d, command), per spec §4.2. -/
structure PidState where
  p : ℚ
  integral : ℚ
  d : ℚ
  command : ℚ
deriving DecidableEq

def PidState.zero : PidState := ⟨0, 0, 0, 0⟩

/-- Modelled from the spec: `mjlib::base::PID::Apply` is not under src/.
§4.2: err = desired − measured; integral accumulates err/rate and is clamped
symmetrically; derivative is desired_rate − measured_rate; output is
kp·err + ki·integral + kd·derivative, clamped by the output limit. -/
def PID_Apply (cfg : PidConfig) (st : PidState)
    (measured desired mrate drate rate : ℚ) : PidState × ℚ :=
  let err := desired - measured
  let integral := Limit (st.integral + err / rate) (-cfg.ilimit) cfg.ilimit
  let p := cfg.kp * err
  let d := cfg.kd * (drate - mrate)
  let command := Limit (p + cfg.ki * integral + d) (-cfg.cmd_limit) cfg.cmd_limit
  (⟨p, integral, d, command⟩, command)

/-- Modelled from the spec: `DqTransform` of moteus/foc.h is not under src/.
§4.1: α = a; β = (b − c)/√3; d = α·cosθ + β·sinθ; q = −α·sinθ + β·cosθ. -/
def DqTransform (t : TrigModel) (sc : SinCos) (a b c : ℚ) : ℚ × ℚ :=
  let alpha := a
  let beta := (b - c) / t.sqrt3
  (alpha * sc.c + beta * sc.s, -alpha * sc.s + beta * sc.c)

/-- Modelled from the spec: `InverseDqTransform` of moteus/foc.h is not under
src/.  §4.1: inverse Park (α = d·cosθ − q·sinθ, β = d·sinθ + q·cosθ) then
inverse Clarke (a = α, b = −α/2 + (√3/2)·β, c = −α/2 − (√3/2)·β). -/
def InverseDqTransform (t : TrigModel) (sc : SinCos) (d q : ℚ) : Vec3 :=
  let alpha := d * sc.c - q * sc.s
  let beta := d * sc.s + q * sc.c
  ⟨alpha, -alpha/2 + t.sqrt3/2 * beta, -alpha/2 - t.sqrt3/2 * beta⟩

/-- Modelled from the spec: `mjlib::base::WindowedAverage<float, 32>` is not
under src/; §4.1: the arithmetic mean of a ring buffer of the last 32
samples. -/
def windowAdd (w : List ℚ) (x : ℚ) : List ℚ := (x :: w).take 32

/-- Modelled from the spec: the windowed average's arithmetic mean. -/
def windowAverage (w : List ℚ) : ℚ :=
  if w.length = 0 then 0 else w.sum / w.length

/-- The `servo` configuration block (`Config`); fields the ISR reads. -/
structure Config where
  motor_poles : ℕ
  motor_offset : ℚ
  motor_resistance : ℚ
  motor_v_per_hz : ℚ
  i_scale_A : ℚ
  v_scale_V : ℚ
  unwrapped_position_scale : ℚ
  max_voltage : ℚ
  feedforward_scale : ℚ
  pid_dq : PidConfig
  pid_position : PidConfig
deriving DecidableEq

/-- `Status`, the ISR-owned telemetry state. -/
structure Status where
  mode : Mode
  fault : Errc
  adc1_raw : ℕ
  adc2_raw : ℕ
  adc3_raw : ℕ
  adc1_offset : ℕ
  adc2_offset : ℕ
  position_raw : ℕ
  unwrapped_position_raw : ℤ
  unwrapped_position : ℚ
  electrical_theta : ℚ
  cur1_A : ℚ
  cur2_A : ℚ
  bus_V : ℚ
  d_A : ℚ
  q_A : ℚ
  velocity : ℚ
  pid_d : PidState
  pid_q : PidState
  pid_position : PidState
deriving DecidableEq

/-- Per-cycle control outputs (`Control`). -/
structure Control where
  pwm : Vec3
  voltage : Vec3
  i_d_A : ℚ
  i_q_A : ℚ
  d_V : ℚ
  q_V : ℚ
deriving DecidableEq

def Control.zero : Control := ⟨Vec3.zero, Vec3.zero, 0, 0, 0, 0⟩

/-- The full machine state visible to the model: `Status`, `Control`, the
ISR-private calibration accumulators and velocity window, and mirrors of the
hardware compare registers and motor-driver lines. -/
structure Machine where
  status : Status
  control : Control
  velocity_window : List ℚ
  calibrate_adc1 : ℕ
  calibrate_adc2 : ℕ
  calibrate_count : ℕ
  ccr1 : ℕ
  ccr2 : ℕ
  ccr3 : ℕ
  driver_enabled : Bool
  driver_powered : Bool
deriving DecidableEq

/-- `CommandData`: the command the ISR reads through `current_data_`. -/
structure CommandData where
  mode : Mode
  pwm : Vec3
  phase_v : Vec3
  theta : ℚ
  voltage : ℚ
  i_d_A : ℚ
  i_q_A : ℚ
  position : ℚ
  velocity : ℚ
  max_current : ℚ
  set_position : Option ℚ
deriving DecidableEq

/-- Environment inputs of one sensing step: the oversampled ADC means read
from the ADC data registers, and the position sensor sample (a uint16). -/
structure Inputs where
  adc1 : ℕ
  adc2 : ℕ
  adc3 : ℕ
  pos : ℕ
deriving DecidableEq

/-- `ISR_DoSense`: store the (oversampled mean) ADC readings, sample the
position sensor, compute `electrical_theta` via `fmodf`, check the
position delta against `kMaxPositionDelta` in any non-Stopped mode, and
update the unwrapped position and windowed velocity. -/
def ISR_DoSense (cfg : Config) (t : TrigModel) (inp : Inputs) (m : Machine) :
    Machine :=
  let adc1_raw := inp.adc1 % 65536
  let adc2_raw := inp.adc2 % 65536
  let adc3_raw := inp.adc3 % 65536
  let old_position_raw := m.status.position_raw
  let position_raw := inp.pos % 65536
  let electrical_theta :=
    t.two_pi * fmod1 ((position_raw : ℚ) / 65536 * ((cfg.motor_poles : ℚ) / 2)
      - cfg.motor_offset)
  let delta_position := toInt16 ((position_raw : ℤ) - (old_position_raw : ℤ))
  let faulted := m.status.mode ≠ Mode.stopped ∧ kMaxPositionDelta < |delta_position|
  let mode' := if faulted then Mode.fault else m.status.mode
  let fault' := if faulted then Errc.encoderFault else m.status.fault
  let unwrapped_position_raw := m.status.unwrapped_position_raw + delta_position
  let window := windowAdd m.velocity_window
    ((delta_position : ℚ) * cfg.unwrapped_position_scale * (1/65536) * kRateHz)
  { m with
    velocity_window := window
    status := { m.status with
      adc1_raw := adc1_raw
      adc2_raw := adc2_raw
      adc3_raw := adc3_raw
      position_raw := position_raw
      electrical_theta := electrical_theta
      mode := mode'
      fault := fault'
      unwrapped_position_raw := unwrapped_position_raw
      velocity := windowAverage window
      unwrapped_position :=
        (unwrapped_position_raw : ℚ) * cfg.unwrapped_position_scale * (1/65536) } }

/-- `ISR_CalculateCurrentState`: phase currents from ADC offsets, bus
voltage, and the DQ transform of the reconstructed three-phase currents. -/
def ISR_CalculateCurrentState (cfg : Config) (t : TrigModel) (sc : SinCos)
    (m : Machine) : Machine :=
  let cur1_A := ((m.status.adc1_raw : ℤ) - (m.status.adc1_offset : ℤ) : ℚ) *
    cfg.i_scale_A
  let cur2_A := ((m.status.adc2_raw : ℤ) - (m.status.adc2_offset : ℤ) : ℚ) *
    cfg.i_scale_A
  let bus_V := (m.status.adc3_raw : ℚ) * cfg.v_scale_V
  let dq := DqTransform t sc cur1_A (0 - (cur1_A + cur2_A)) cur2_A
  { m with status := { m.status with
      cur1_A := cur1_A
      cur2_A := cur2_A
      bus_V := bus_V
      d_A := dq.1
      q_A := dq.2 } }

/-- `ISR_StartCalibrating`: enter `Enabling`, zero the compare registers,
unpower the driver, zero the calibration accumulators. -/
def ISR_StartCalibrating (m : Machine) : Machine × List Effect :=
  ({ m with
      status := { m.status with mode := Mode.enabling }
      ccr1 := 0
      ccr2 := 0
      ccr3 := 0
      driver_powered := false
      calibrate_adc1 := 0
      calibrate_adc2 := 0
      calibrate_count := 0 },
   [Effect.ccr1 0, Effect.ccr2 0, Effect.ccr3 0, Effect.power false])

/-- `ISR_MaybeChangeMode`: reconcile a commanded mode that differs from the
current one.  The `kFault`/`kCalibrating`/`kCalibrationComplete` command
cases are `MJ_ASSERT(false)` in the source (ruled out by `Command`'s
preconditions) and leave the state unchanged here, as the release build
does. -/
def ISR_MaybeChangeMode (m : Machine) (d : CommandData) :
    Machine × List Effect :=
  match d.mode with
  | Mode.fault | Mode.calibrating | Mode.calibrationComplete => (m, [])
  | Mode.stopped =>
    ({ m with status := { m.status with mode := Mode.stopped } }, [])
  | Mode.enabling => (m, [])
  | Mode.pwm | Mode.voltage | Mode.voltageFoc | Mode.current | Mode.position =>
    match m.status.mode with
    | Mode.fault => (m, [])
    | Mode.stopped => ISR_StartCalibrating m
    | Mode.enabling | Mode.calibrating => (m, [])
    | Mode.calibrationComplete | Mode.pwm | Mode.voltage | Mode.voltageFoc
    | Mode.current | Mode.position =>
      ({ m with status := { m.status with mode := d.mode } }, [])

/-- `ISR_ClearPid`: zero the current-loop PID state unless the mode is
Current or Position, and the position PID state unless the mode is
Position. -/
def ISR_ClearPid (m : Machine) : Machine :=
  let current_pid_active :=
    match m.status.mode with
    | Mode.current | Mode.position => true
    | _ => false
  let m1 :=
    if current_pid_active then m
    else { m with status := { m.status with
            pid_d := PidState.zero, pid_q := PidState.zero } }
  let position_pid_active :=
    match m1.status.mode with
    | Mode.position => true
    | _ => false
  if position_pid_active then m1
  else { m1 with status := { m1.status with pid_position := PidState.zero } }

/-- `ISR_DoStopped`: disable and unpower the driver, zero the compare
registers. -/
def ISR_DoStopped (m : Machine) : Machine × List Effect :=
  ({ m with
      driver_enabled := false
      driver_powered := false
      ccr1 := 0
      ccr2 := 0
      ccr3 := 0 },
   [Effect.enable false, Effect.power false,
    Effect.ccr1 0, Effect.ccr2 0, Effect.ccr3 0])

/-- `ISR_DoFault`: unpower the driver, zero the compare registers. -/
def ISR_DoFault (m : Machine) : Machine × List Effect :=
  ({ m with
      driver_powered := false
      ccr1 := 0
      ccr2 := 0
      ccr3 := 0 },
   [Effect.power false, Effect.ccr1 0, Effect.ccr2 0, Effect.ccr3 0])

/-- `ISR_DoCalibrating`: accumulate the raw ADC readings; after
`kCalibrateCount` samples take the means, fault on an out-of-band mean,
otherwise store the offsets and enter `CalibrationComplete`. -/
def ISR_DoCalibrating (m : Machine) : Machine :=
  let s1 := m.calibrate_adc1 + m.status.adc1_raw
  let s2 := m.calibrate_adc2 + m.status.adc2_raw
  let cnt := m.calibrate_count + 1
  let m1 := { m with
    calibrate_adc1 := s1
    calibrate_adc2 := s2
    calibrate_count := cnt }
  if cnt < kCalibrateCount then m1
  else
    let new_adc1_offset := (s1 / kCalibrateCount) % 65536
    let new_adc2_offset := (s2 / kCalibrateCount) % 65536
    if 200 < ((new_adc1_offset : ℤ) - 2048).natAbs ∨
        200 < ((new_adc2_offset : ℤ) - 2048).natAbs then
      { m1 with status := { m1.status with
          mode := Mode.fault, fault := Errc.calibrationFault } }
    else
      { m1 with status := { m1.status with
          adc1_offset := new_adc1_offset
          adc2_offset := new_adc2_offset
          mode := Mode.calibrationComplete } }

/-- `ISR_DoPwmControl`: clamp each requested duty with `LimitPwm`, scale by
`kPwmCounts` and write the compare registers (note the source's channel
mapping a→ccr1, b→ccr3, c→ccr2), then power the driver. -/
def ISR_DoPwmControl (m : Machine) (pwm : Vec3) : Machine × List Effect :=
  let da := LimitPwm pwm.a
  let db := LimitPwm pwm.b
  let dc := LimitPwm pwm.c
  let va := qToU16 (da * (kPwmCounts : ℚ))
  let vb := qToU16 (db * (kPwmCounts : ℚ))
  let vc := qToU16 (dc * (kPwmCounts : ℚ))
  ({ m with
      control := { m.control with pwm := ⟨da, db, dc⟩ }
      ccr1 := va
      ccr3 := vb
      ccr2 := vc
      driver_powered := true },
   [Effect.ccr1 va, Effect.ccr3 vb, Effect.ccr2 vc, Effect.power true])

/-- The duty ratio for one phase voltage, `0.5 + 2 v / bus_V`. -/
def voltageToPwm (busV v : ℚ) : ℚ := 1/2 + 2 * v / busV

/-- `ISR_DoVoltageControl`: convert each phase voltage to a duty ratio and
feed the PWM path. -/
def ISR_DoVoltageControl (m : Machine) (voltage : Vec3) :
    Machine × List Effect :=
  let m1 := { m with control := { m.control with voltage := voltage } }
  ISR_DoPwmControl m1
    ⟨voltageToPwm m.status.bus_V voltage.a,
     voltageToPwm m.status.bus_V voltage.b,
     voltageToPwm m.status.bus_V voltage.c⟩

/-- `ISR_DoVoltageFOC`: inverse DQ of `(0, voltage)` at the commanded theta,
fed into the voltage path. -/
def ISR_DoVoltageFOC (t : TrigModel) (m : Machine) (theta voltage : ℚ) :
    Machine × List Effect :=
  let sc : SinCos := ⟨t.sin theta, t.cos theta⟩
  ISR_DoVoltageControl m (InverseDqTransform t sc 0 voltage)

/-- `ISR_DoCurrent`: feedforward plus PID on the d and q axes, inverse DQ,
fed into the voltage path. -/
def ISR_DoCurrent (cfg : Config) (t : TrigModel) (sc : SinCos) (m : Machine)
    (i_d_A i_q_A : ℚ) : Machine × List Effect :=
  let pd := PID_Apply cfg.pid_dq m.status.pid_d m.status.d_A i_d_A 0 0 kRateHz
  let d_V := cfg.feedforward_scale *
      (i_d_A * cfg.motor_resistance - m.status.velocity * cfg.motor_v_per_hz) +
    pd.2
  let pq := PID_Apply cfg.pid_dq m.status.pid_q m.status.q_A i_q_A 0 0 kRateHz
  let q_V := cfg.feedforward_scale * (i_q_A * cfg.motor_resistance) + pq.2
  let m1 := { m with
    status := { m.status with pid_d := pd.1, pid_q := pq.1 }
    control := { m.control with
      i_d_A := i_d_A, i_q_A := i_q_A, d_V := d_V, q_V := q_V } }
  ISR_DoVoltageControl m1 (InverseDqTransform t sc d_V q_V)

/-- `ISR_DoPosition`: position PID producing a d-axis current command,
clamped to `±max_current`, fed into the current path. -/
def ISR_DoPosition (cfg : Config) (t : TrigModel) (sc : SinCos) (m : Machine)
    (pos vel max_current : ℚ) : Machine × List Effect :=
  let pp := PID_Apply cfg.pid_position m.status.pid_position
    m.status.unwrapped_position pos m.status.velocity vel kRateHz
  let d_A := Limit pp.2 (-max_current) max_current
  let m1 := { m with status := { m.status with pid_position := pp.1 } }
  ISR_DoCurrent cfg t sc m1 d_A 0

/-- The dispatch tail of `ISR_DoControl`: clear unused PID state, reset the
fault code outside Fault mode, and dispatch on the current mode. -/
def ISR_Dispatch (cfg : Config) (t : TrigModel) (sc : SinCos)
    (d : CommandData) (m : Machine) : Machine × List Effect :=
  let m3 := ISR_ClearPid m
  let m4 :=
    if m3.status.mode ≠ Mode.fault then
      { m3 with status := { m3.status with fault := Errc.success } }
    else m3
  match m4.status.mode with
  | Mode.stopped => ISR_DoStopped m4
  | Mode.fault => ISR_DoFault m4
  | Mode.enabling => (m4, [])
  | Mode.calibrating => (ISR_DoCalibrating m4, [])
  | Mode.calibrationComplete => (m4, [])
  | Mode.pwm => ISR_DoPwmControl m4 d.pwm
  | Mode.voltage => ISR_DoVoltageControl m4 d.phase_v
  | Mode.voltageFoc => ISR_DoVoltageFOC t m4 d.theta d.voltage
  | Mode.current => ISR_DoCurrent cfg t sc m4 d.i_d_A d.i_q_A
  | Mode.position => ISR_DoPosition cfg t sc m4 d.position d.velocity
      d.max_current

/-- The tail of `ISR_DoControl` after the `set_position` step: reconcile a
changed commanded mode (running the driver-fault and over-voltage checks,
which return before the dispatch), then dispatch on the resulting mode. -/
def ISR_DoControlCore (cfg : Config) (t : TrigModel) (sc : SinCos)
    (d1 : CommandData) (driverFault : Bool) (m1 : Machine) :
    Machine × List Effect :=
  if d1.mode = m1.status.mode then
    ISR_Dispatch cfg t sc d1 m1
  else
    let r := ISR_MaybeChangeMode m1 d1
    let m2 := r.1
    if m2.status.mode ≠ Mode.stopped then
      if driverFault then
        ({ m2 with status := { m2.status with
            mode := Mode.fault, fault := Errc.motorDriverFault } }, r.2)
      else if cfg.max_voltage < m2.status.bus_V then
        ({ m2 with status := { m2.status with
            mode := Mode.fault, fault := Errc.overVoltage } }, r.2)
      else
        let r2 := ISR_Dispatch cfg t sc d1 m2
        (r2.1, r.2 ++ r2.2)
    else
      let r2 := ISR_Dispatch cfg t sc d1 m2
      (r2.1, r.2 ++ r2.2)

/-- `ISR_DoControl`: zero the per-cycle control telemetry, apply a pending
`set_position`, then run the reconciliation-and-dispatch tail.  Returns the
new machine, the hardware effects of the cycle, and the command with
`set_position` consumed. -/
def ISR_DoControl (cfg : Config) (t : TrigModel) (sc : SinCos)
    (d : CommandData) (driverFault : Bool) (m : Machine) :
    Machine × List Effect × CommandData :=
  let m0 := { m with control := Control.zero }
  let m1 :=
    match d.set_position with
    | some p =>
      { m0 with status := { m0.status with
          unwrapped_position_raw := rtrunc (p * 65536) } }
    | none => m0
  let d1 := { d with set_position := none }
  let r := ISR_DoControlCore cfg t sc d1 driverFault m1
  (r.1, r.2, d1)

/-- `ISR_DoTimer` (without the debug frame emission): sense, build the
`SinCos` of the new electrical angle, compute the current state, and run
the control step. -/
def ISR_DoTimer (cfg : Config) (t : TrigModel) (inp : Inputs)
    (d : CommandData) (driverFault : Bool) (m : Machine) :
    Machine × List Effect × CommandData :=
  let m1 := ISR_DoSense cfg t inp m
  let sc : SinCos :=
    ⟨t.sin m1.status.electrical_theta, t.cos m1.status.electrical_theta⟩
  let m2 := ISR_CalculateCurrentState cfg t sc m1
  ISR_DoControl cfg t sc d driverFault m2

/-- `PollMillisecond`: the foreground tick; if the mode is `Enabling`,
enable the driver and advance to `Calibrating`. -/
def PollMillisecond (m : Machine) : Machine × List Effect :=
  if m.status.mode = Mode.enabling then
    ({ m with
        status := { m.status with mode := Mode.calibrating }
        driver_enabled := true },
     [Effect.enable true])
  else (m, [])

/-- The active control modes (`kPwm … kPosition`). -/
def modeIsActive : Mode → Bool
  | Mode.pwm | Mode.voltage | Mode.voltageFoc | Mode.current
  | Mode.position => true
  | _ => false

/-- A compare-register write is either the zero write of the
Stopped/Fault/Enabling paths or a clamped duty scaled by `kPwmCounts`,
which lands in `[112, 1012]`; driver calls are unconstrained. -/
def ccrWriteOK : Effect → Prop
  | Effect.ccr1 v | Effect.ccr2 v | Effect.ccr3 v =>
    v = 0 ∨ (112 ≤ v ∧ v ≤ 1012)
  | Effect.power _ | Effect.enable _ => True

instance (e : Effect) : Decidable (ccrWriteOK e) := by
  cases e <;> simp only [ccrWriteOK] <;> infer_instance

/-- Zero PID gains, for concrete instantiations. -/
def pidCfg0 : PidConfig := ⟨0, 0, 0, 0, 0⟩

/-- A concrete configuration used by witnesses and counterexamples. -/
def cfg0 : Config :=
  { motor_poles := 14
    motor_offset := 0
    motor_resistance := 0
    motor_v_per_hz := 0
    i_scale_A := 0
    v_scale_V := 0
    unwrapped_position_scale := 1
    max_voltage := 40
    feedforward_scale := 1
    pid_dq := pidCfg0
    pid_position := pidCfg0 }

/-- A concrete trig model (its values are irrelevant to every claim). -/
def trig0 : TrigModel := ⟨6, fun _ => 0, fun _ => 1, 2⟩

/-- A concrete `SinCos` value. -/
def sc0 : SinCos := ⟨0, 1⟩

/-- The zero `Status`, Stopped and fault-free. -/
def status0 : Status :=
  { mode := Mode.stopped
    fault := Errc.success
    adc1_raw := 0
    adc2_raw := 0
    adc3_raw := 0
    adc1_offset := 0
    adc2_offset := 0
    position_raw := 0
    unwrapped_position_raw := 0
    unwrapped_position := 0
    electrical_theta := 0
    cur1_A := 0
    cur2_A := 0
    bus_V := 0
    d_A := 0
    q_A := 0
    velocity := 0
    pid_d := PidState.zero
    pid_q := PidState.zero
    pid_position := PidState.zero }

/-- The zero machine state. -/
def machine0 : Machine :=
  { status := status0
    control := Control.zero
    velocity_window := []
    calibrate_adc1 := 0
    calibrate_adc2 := 0
    calibrate_count := 0
    ccr1 := 0
    ccr2 := 0
    ccr3 := 0
    driver_enabled := false
    driver_powered := false }

/-- A command requesting mode `mo` with zero payloads. -/
def mkCmd (mo : Mode) : CommandData :=
  { mode := mo
    pwm := Vec3.zero
    phase_v := Vec3.zero
    theta := 0
    voltage := 0
    i_d_A := 0
    i_q_A := 0
    position := 0
    velocity := 0
    max_current := 0
    set_position := none }

/-- Zero environment inputs. -/
def inp0 : Inputs := ⟨0, 0, 0, 0⟩

/-- A machine in Calibrating mode with zeroed accumulators and constant raw
ADC readings r1, r2. -/
def calMachine (r1 r2 : ℕ) : Machine :=
  { machine0 with status :=
    { status0 with
      mode := Mode.calibrating
      adc1_raw := r1
      adc2_raw := r2 } }

theorem ISR_DoPwmControl_status (m : Machine) (p : Vec3) :
    (ISR_DoPwmControl m p).1.status = m.status := rfl

theorem ISR_DoVoltageControl_status (m : Machine) (v : Vec3) :
    (ISR_DoVoltageControl m v).1.status = m.status := rfl

theorem ISR_DoVoltageFOC_status (t : TrigModel) (m : Machine) (th vo : ℚ) :
    (ISR_DoVoltageFOC t m th vo).1.status = m.status := rfl

theorem ISR_DoCurrent_mode (cfg : Config) (t : TrigModel) (sc : SinCos)
    (m : Machine) (a b : ℚ) :
    (ISR_DoCurrent cfg t sc m a b).1.status.mode = m.status.mode := rfl

theorem ISR_DoCurrent_fault (cfg : Config) (t : TrigModel) (sc : SinCos)
    (m : Machine) (a b : ℚ) :
    (ISR_DoCurrent cfg t sc m a b).1.status.fault = m.status.fault := rfl

theorem ISR_DoPosition_mode (cfg : Config) (t : TrigModel) (sc : SinCos)
    (m : Machine) (a b c : ℚ) :
    (ISR_DoPosition cfg t sc m a b c).1.status.mode = m.status.mode := rfl

theorem ISR_DoPosition_fault (cfg : Config) (t : TrigModel) (sc : SinCos)
    (m : Machine) (a b c : ℚ) :
    (ISR_DoPosition cfg t sc m a b c).1.status.fault = m.status.fault := rfl

theorem ISR_ClearPid_mode (m : Machine) :
    (ISR_ClearPid m).status.mode = m.status.mode := by
  unfold ISR_ClearPid
  cases h : m.status.mode <;> simp [h]

theorem ISR_ClearPid_fault (m : Machine) :
    (ISR_ClearPid m).status.fault = m.status.fault := by
  unfold ISR_ClearPid
  cases h : m.status.mode <;> simp [h]

theorem ISR_ClearPid_fields (m : Machine) :
    (ISR_ClearPid m).status.adc1_raw = m.status.adc1_raw ∧
    (ISR_ClearPid m).status.adc2_raw = m.status.adc2_raw ∧
    (ISR_ClearPid m).status.adc1_offset = m.status.adc1_offset ∧
    (ISR_ClearPid m).status.adc2_offset = m.status.adc2_offset ∧
    (ISR_ClearPid m).status.bus_V = m.status.bus_V ∧
    (ISR_ClearPid m).calibrate_adc1 = m.calibrate_adc1 ∧
    (ISR_ClearPid m).calibrate_adc2 = m.calibrate_adc2 ∧
    (ISR_ClearPid m).calibrate_count = m.calibrate_count ∧
    (ISR_ClearPid m).ccr1 = m.ccr1 ∧
    (ISR_ClearPid m).ccr2 = m.ccr2 ∧
    (ISR_ClearPid m).ccr3 = m.ccr3 ∧
    (ISR_ClearPid m).driver_powered = m.driver_powered ∧
    (ISR_ClearPid m).driver_enabled = m.driver_enabled := by
  unfold ISR_ClearPid
  cases h : m.status.mode <;> simp [h]

theorem ISR_CalculateCurrentState_mode (cfg : Config) (t : TrigModel)
    (sc : SinCos) (m : Machine) :
    (ISR_CalculateCurrentState cfg t sc m).status.mode = m.status.mode := rfl

theorem ISR_CalculateCurrentState_fault (cfg : Config) (t : TrigModel)
    (sc : SinCos) (m : Machine) :
    (ISR_CalculateCurrentState cfg t sc m).status.fault = m.status.fault := rfl

theorem ISR_DoStopped_status (m : Machine) :
    (ISR_DoStopped m).1.status = m.status := rfl

theorem ISR_DoFault_status (m : Machine) :
    (ISR_DoFault m).1.status = m.status := rfl

/-- `ISR_DoTimer` unfolded into its three phases. -/
theorem ISR_DoTimer_eq (cfg : Config) (t : TrigModel) (inp : Inputs)
    (d : CommandData) (df : Bool) (m : Machine) :
    ISR_DoTimer cfg t inp d df m =
      ISR_DoControl cfg t
        ⟨t.sin (ISR_DoSense cfg t inp m).status.electrical_theta,
         t.cos (ISR_DoSense cfg t inp m).status.electrical_theta⟩ d df
        (ISR_CalculateCurrentState cfg t
          ⟨t.sin (ISR_DoSense cfg t inp m).status.electrical_theta,
           t.cos (ISR_DoSense cfg t inp m).status.electrical_theta⟩
          (ISR_DoSense cfg t inp m)) := rfl

/-- The sensing step leaves mode and fault alone when the mode is
Stopped. -/
theorem ISR_DoSense_stopped (cfg : Config) (t : TrigModel) (inp : Inputs)
    (m : Machine) (hm : m.status.mode = Mode.stopped) :
    (ISR_DoSense cfg t inp m).status.mode = Mode.stopped ∧
    (ISR_DoSense cfg t inp m).status.fault = m.status.fault := by
  simp only [ISR_DoSense]
  split_ifs with h
  · exact absurd hm h.1
  · exact ⟨hm, rfl⟩

/-- The sensing step either keeps the mode or faults. -/
theorem ISR_DoSense_mode_cases (cfg : Config) (t : TrigModel) (inp : Inputs)
    (m : Machine) :
    (ISR_DoSense cfg t inp m).status.mode = m.status.mode ∨
    (ISR_DoSense cfg t inp m).status.mode = Mode.fault := by
  simp only [ISR_DoSense]
  split_ifs with h
  · exact Or.inr rfl
  · exact Or.inl rfl

/-- Fields of the machine that the sensing step never touches. -/
theorem ISR_DoSense_fields (cfg : Config) (t : TrigModel) (inp : Inputs)
    (m : Machine) :
    (ISR_DoSense cfg t inp m).calibrate_adc1 = m.calibrate_adc1 ∧
    (ISR_DoSense cfg t inp m).calibrate_adc2 = m.calibrate_adc2 ∧
    (ISR_DoSense cfg t inp m).calibrate_count = m.calibrate_count ∧
    (ISR_DoSense cfg t inp m).ccr1 = m.ccr1 ∧
    (ISR_DoSense cfg t inp m).ccr2 = m.ccr2 ∧
    (ISR_DoSense cfg t inp m).ccr3 = m.ccr3 ∧
    (ISR_DoSense cfg t inp m).driver_powered = m.driver_powered ∧
    (ISR_DoSense cfg t inp m).driver_enabled = m.driver_enabled := by
  simp [ISR_DoSense]

/-- C1: in any non-Stopped mode, a position delta (interpreted as a signed
16-bit quantity) of magnitude above 1000 counts sends the controller to
Fault with `EncoderFault`; a delta within 1000 counts leaves mode and fault
unchanged by the sensing step. -/
theorem c1_encoder_delta_fault (cfg : Config) (t : TrigModel) (inp : Inputs)
    (m : Machine) :
    (m.status.mode ≠ Mode.stopped →
      kMaxPositionDelta <
        |toInt16 (((inp.pos % 65536 : ℕ) : ℤ) - (m.status.position_raw : ℤ))| →
      (ISR_DoSense cfg t inp m).status.mode = Mode.fault ∧
      (ISR_DoSense cfg t inp m).status.fault = Errc.encoderFault) ∧
    (|toInt16 (((inp.pos % 65536 : ℕ) : ℤ) - (m.status.position_raw : ℤ))| ≤
        kMaxPositionDelta →
      (ISR_DoSense cfg t inp m).status.mode = m.status.mode ∧
      (ISR_DoSense cfg t inp m).status.fault = m.status.fault) := by
  constructor
  · intro h1 h2
    simp only [ISR_DoSense]
    split_ifs with h
    · exact ⟨rfl, rfl⟩
    · exact absurd ⟨h1, h2⟩ h
  · intro h
    simp only [ISR_DoSense]
    split_ifs with hf
    · exact absurd hf.2 (not_lt.2 h)
    · exact ⟨rfl, rfl⟩

/-- C1 witness: a 2000-count jump while in Pwm mode faults with
`EncoderFault`. -/
theorem c1_encoder_delta_fault_witness :
    (ISR_DoSense cfg0 trig0 ⟨0, 0, 0, 2000⟩
      { machine0 with status := { status0 with mode := Mode.pwm } }).status.mode
      = Mode.fault ∧
    (ISR_DoSense cfg0 trig0 ⟨0, 0, 0, 2000⟩
      { machine0 with status := { status0 with mode := Mode.pwm } }).status.fault
      = Errc.encoderFault :=
  (c1_encoder_delta_fault cfg0 trig0 ⟨0, 0, 0, 2000⟩
    { machine0 with status := { status0 with mode := Mode.pwm } }).1
    (by decide) (by decide)

/-- C3: from Fault, a commanded active control mode is never accepted (the
mode stays Fault); a non-Stopped command never leaves Fault, and a
commanded Stopped is accepted from every state. -/
theorem c3_fault_only_to_stopped (m : Machine) (d : CommandData) :
    (m.status.mode = Mode.fault → modeIsActive d.mode = true →
      (ISR_MaybeChangeMode m d).1.status.mode = Mode.fault) ∧
    (m.status.mode = Mode.fault → d.mode ≠ Mode.stopped →
      (ISR_MaybeChangeMode m d).1.status.mode = Mode.fault) ∧
    (d.mode = Mode.stopped →
      (ISR_MaybeChangeMode m d).1.status.mode = Mode.stopped) := by
  cases hd : d.mode <;> cases hm : m.status.mode <;>
    simp [ISR_MaybeChangeMode, ISR_StartCalibrating, modeIsActive, hd, hm]

/-- C3 witness: a Current command from Fault leaves the mode at Fault. -/
theorem c3_fault_only_to_stopped_witness :
    (ISR_MaybeChangeMode
      { machine0 with status := { status0 with mode := Mode.fault } }
      (mkCmd Mode.current)).1.status.mode = Mode.fault :=
  (c3_fault_only_to_stopped
    { machine0 with status := { status0 with mode := Mode.fault } }
    (mkCmd Mode.current)).1 (by decide) (by decide)

/-- C8: voltage control converts each phase voltage v to the duty ratio
0.5 + 2·v/bus_V, clamped by the PWM path; with bus_V = 24 and command
(a = 12, b = 0, c = 0) the duties are 0.9 (1.5 clamped), 0.5, 0.5. -/
theorem c8_voltage_duty (m : Machine) (v : Vec3) :
    ((ISR_DoVoltageControl m v).1.control.pwm =
      ⟨LimitPwm (voltageToPwm m.status.bus_V v.a),
       LimitPwm (voltageToPwm m.status.bus_V v.b),
       LimitPwm (voltageToPwm m.status.bus_V v.c)⟩) ∧
    (m.status.bus_V = 24 → v = ⟨12, 0, 0⟩ →
      (ISR_DoVoltageControl m v).1.control.pwm =
        ⟨9/10, 1/2, 1/2⟩) := by
  have h1 : (ISR_DoVoltageControl m v).1.control.pwm =
      ⟨LimitPwm (voltageToPwm m.status.bus_V v.a),
       LimitPwm (voltageToPwm m.status.bus_V v.b),
       LimitPwm (voltageToPwm m.status.bus_V v.c)⟩ := rfl
  refine ⟨h1, fun hb hv => ?_⟩
  rw [h1, hb, hv]
  norm_num [voltageToPwm, LimitPwm, Limit]

/-- C8 witness: the concrete duty triple at bus_V = 24 and command
(12, 0, 0). -/
theorem c8_voltage_duty_witness :
    (ISR_DoVoltageControl
      { machine0 with status := { status0 with bus_V := 24 } }
      ⟨12, 0, 0⟩).1.control.pwm = ⟨9/10, 1/2, 1/2⟩ :=
  (c8_voltage_duty
    { machine0 with status := { status0 with bus_V := 24 } }
    ⟨12, 0, 0⟩).2 (by decide) rfl

theorem fmod1_bounds (x : ℚ) : -1 < fmod1 x ∧ fmod1 x < 1 := by
  unfold fmod1 rtrunc
  split_ifs with h
  · have h1 : (0:ℚ) ≤ Int.fract x := Int.fract_nonneg x
    have h2 : Int.fract x < 1 := Int.fract_lt_one x
    have h0 : Int.fract x = x - (⌊x⌋ : ℚ) := rfl
    constructor <;> [linarith [h0 ▸ h1]; linarith [h0 ▸ h2]]
  · have h1 : (0:ℚ) ≤ Int.fract (-x) := Int.fract_nonneg (-x)
    have h2 : Int.fract (-x) < 1 := Int.fract_lt_one (-x)
    have h0 : Int.fract (-x) = -x - (⌊-x⌋ : ℚ) := rfl
    rw [h0] at h1 h2
    push_cast
    constructor <;> linarith

theorem fmod1_nonneg (x : ℚ) (h : 0 ≤ x) : 0 ≤ fmod1 x ∧ fmod1 x < 1 := by
  unfold fmod1 rtrunc
  rw [if_pos h]
  have h1 : (0:ℚ) ≤ Int.fract x := Int.fract_nonneg x
  have h2 : Int.fract x < 1 := Int.fract_lt_one x
  have h0 : Int.fract x = x - (⌊x⌋ : ℚ) := rfl
  rw [h0] at h1 h2
  exact ⟨h1, h2⟩

/-- The electrical angle computed by the sensing step, in closed form. -/
theorem ISR_DoSense_theta (cfg : Config) (t : TrigModel) (inp : Inputs)
    (m : Machine) :
    (ISR_DoSense cfg t inp m).status.electrical_theta =
      t.two_pi * fmod1 (((inp.pos % 65536 : ℕ) : ℚ) / 65536 *
        ((cfg.motor_poles : ℚ) / 2) - cfg.motor_offset) := rfl

/-- C6 counterexample: with motor_offset = 1/2 and position_raw = 0 the
`fmodf` argument is −1/2 and the computed electrical angle is negative,
outside [0, 2π). -/
theorem c6_theta_negative_counterexample :
    (ISR_DoSense { cfg0 with motor_offset := 1/2 } trig0 inp0
      machine0).status.electrical_theta < 0 := by
  rw [ISR_DoSense_theta]
  norm_num [cfg0, trig0, inp0, fmod1, rtrunc]

/-- C6 amended: the computed electrical angle lies in (−2π, 2π); it lies in
[0, 2π) whenever the `fmodf` argument is non-negative (the source computes
`fmodf`, whose result carries the sign of its argument, not
`x − ⌊x⌋`). -/
theorem c6_amended_theta_range (cfg : Config) (t : TrigModel) (inp : Inputs)
    (m : Machine) (hpos : 0 < t.two_pi) :
    (-t.two_pi < (ISR_DoSense cfg t inp m).status.electrical_theta ∧
      (ISR_DoSense cfg t inp m).status.electrical_theta < t.two_pi) ∧
    (0 ≤ ((inp.pos % 65536 : ℕ) : ℚ) / 65536 * ((cfg.motor_poles : ℚ) / 2)
        - cfg.motor_offset →
      0 ≤ (ISR_DoSense cfg t inp m).status.electrical_theta ∧
      (ISR_DoSense cfg t inp m).status.electrical_theta < t.two_pi) := by
  rw [ISR_DoSense_theta]
  set x := ((inp.pos % 65536 : ℕ) : ℚ) / 65536 * ((cfg.motor_poles : ℚ) / 2)
    - cfg.motor_offset with hx
  obtain ⟨hb1, hb2⟩ := fmod1_bounds x
  constructor
  · constructor
    · have := mul_lt_mul_of_pos_left hb1 hpos
      linarith
    · have := mul_lt_mul_of_pos_left hb2 hpos
      linarith
  · intro h
    obtain ⟨hn1, hn2⟩ := fmod1_nonneg x h
    constructor
    · exact mul_nonneg hpos.le hn1
    · have := mul_lt_mul_of_pos_left hn2 hpos
      linarith

/-- C6 witness: the angle bounds at a concrete configuration. -/
theorem c6_amended_theta_range_witness :
    -trig0.two_pi <
      (ISR_DoSense cfg0 trig0 inp0 machine0).status.electrical_theta ∧
    (ISR_DoSense cfg0 trig0 inp0 machine0).status.electrical_theta <
      trig0.two_pi :=
  (c6_amended_theta_range cfg0 trig0 inp0 machine0 (by decide)).1

/-- Dispatching in Stopped mode keeps the mode and resets the fault code to
Success. -/
theorem ISR_Dispatch_stopped (cfg : Config) (t : TrigModel) (sc : SinCos)
    (d : CommandData) (m : Machine) (hm : m.status.mode = Mode.stopped) :
    (ISR_Dispatch cfg t sc d m).1.status.mode = Mode.stopped ∧
    (ISR_Dispatch cfg t sc d m).1.status.fault = Errc.success := by
  unfold ISR_Dispatch
  simp [ISR_ClearPid_mode, hm, ISR_DoStopped]

/-- The control tail entered in Stopped mode with a Stopped command stays
Stopped and resets the fault code to Success. -/
theorem doControlCore_stopped (cfg : Config) (t : TrigModel) (sc : SinCos)
    (d1 : CommandData) (df : Bool) (m1 : Machine)
    (hm : m1.status.mode = Mode.stopped) (hd : d1.mode = Mode.stopped) :
    (ISR_DoControlCore cfg t sc d1 df m1).1.status.mode = Mode.stopped ∧
    (ISR_DoControlCore cfg t sc d1 df m1).1.status.fault = Errc.success := by
  unfold ISR_DoControlCore
  rw [if_pos (hd.trans hm.symm)]
  exact ISR_Dispatch_stopped cfg t sc d1 m1 hm

/-- A control step entered in Stopped mode with a Stopped command stays
Stopped and resets the fault code to Success. -/
theorem doControl_stopped (cfg : Config) (t : TrigModel) (sc : SinCos)
    (d : CommandData) (df : Bool) (m : Machine)
    (hm : m.status.mode = Mode.stopped) (hd : d.mode = Mode.stopped) :
    (ISR_DoControl cfg t sc d df m).1.status.mode = Mode.stopped ∧
    (ISR_DoControl cfg t sc d df m).1.status.fault = Errc.success := by
  rcases hsp : d.set_position with _ | p <;>
  · simp only [ISR_DoControl, hsp]
    exact doControlCore_stopped cfg t sc _ df _ hm hd

/-- C5 counterexample: after recovery to Stopped with the fault field still
holding `EncoderFault`, the very next ISR cycle overwrites it with
`Success`, so the most recent cause is not left readable. -/
theorem c5_fault_cleared_counterexample :
    (ISR_DoTimer cfg0 trig0 inp0 (mkCmd Mode.stopped) false
      { machine0 with status := { status0 with fault := Errc.encoderFault } }
      ).1.status.fault = Errc.success ∧
    Errc.success ≠ Errc.encoderFault := by
  refine ⟨?_, by decide⟩
  rw [ISR_DoTimer_eq]
  refine (doControl_stopped _ _ _ _ _ _ ?_ (by decide)).2
  rw [ISR_CalculateCurrentState_mode]
  exact (ISR_DoSense_stopped _ _ _ _ (by decide)).1

/-- C5 amended: the fault code does not remain readable after recovery: on
the next ISR cycle in Stopped mode it is reset to Success (the cause is
only preserved while the mode remains Fault). -/
theorem c5_amended_fault_reset (cfg : Config) (t : TrigModel) (inp : Inputs)
    (d : CommandData) (df : Bool) (m : Machine)
    (hm : m.status.mode = Mode.stopped) (hd : d.mode = Mode.stopped) :
    (ISR_DoTimer cfg t inp d df m).1.status.mode = Mode.stopped ∧
    (ISR_DoTimer cfg t inp d df m).1.status.fault = Errc.success := by
  rw [ISR_DoTimer_eq]
  refine doControl_stopped _ _ _ _ _ _ ?_ hd
  rw [ISR_CalculateCurrentState_mode]
  exact (ISR_DoSense_stopped cfg t inp m hm).1

/-- C5 witness: the amended statement at a concrete recovered state. -/
theorem c5_amended_fault_reset_witness :
    (ISR_DoTimer cfg0 trig0 inp0 (mkCmd Mode.stopped) false
      { machine0 with status :=
        { status0 with fault := Errc.overVoltage } }).1.status.mode =
      Mode.stopped ∧
    (ISR_DoTimer cfg0 trig0 inp0 (mkCmd Mode.stopped) false
      { machine0 with status :=
        { status0 with fault := Errc.overVoltage } }).1.status.fault =
      Errc.success :=
  c5_amended_fault_reset cfg0 trig0 inp0 (mkCmd Mode.stopped) false
    { machine0 with status := { status0 with fault := Errc.overVoltage } }
    (by decide) (by decide)

theorem limitPwm_bounds (x : ℚ) : 1/10 ≤ LimitPwm x ∧ LimitPwm x ≤ 9/10 := by
  unfold LimitPwm Limit
  split_ifs <;> constructor <;> linarith

theorem qToU16_limitPwm_bounds (x : ℚ) :
    112 ≤ qToU16 (LimitPwm x * (kPwmCounts : ℚ)) ∧
    qToU16 (LimitPwm x * (kPwmCounts : ℚ)) ≤ 1012 := by
  obtain ⟨h1, h2⟩ := limitPwm_bounds x
  have hk : ((kPwmCounts : ℕ) : ℚ) = 1125 := by norm_num [kPwmCounts]
  have hy1 : (112 : ℚ) ≤ LimitPwm x * (kPwmCounts : ℚ) := by rw [hk]; nlinarith
  have hy2 : LimitPwm x * (kPwmCounts : ℚ) < 1013 := by rw [hk]; nlinarith
  have h0 : (0 : ℚ) ≤ LimitPwm x * (kPwmCounts : ℚ) := by linarith
  unfold qToU16 rtrunc
  rw [if_pos h0]
  have hf1 : (112 : ℤ) ≤ ⌊LimitPwm x * (kPwmCounts : ℚ)⌋ :=
    Int.le_floor.mpr (by exact_mod_cast hy1)
  have hf2 : ⌊LimitPwm x * (kPwmCounts : ℚ)⌋ < 1013 :=
    Int.floor_lt.mpr (by exact_mod_cast hy2)
  omega

theorem doPwm_effects_ok (m : Machine) (p : Vec3) :
    ∀ e ∈ (ISR_DoPwmControl m p).2, ccrWriteOK e := by
  intro e he
  simp only [ISR_DoPwmControl, List.mem_cons, List.not_mem_nil, or_false] at he
  rcases he with rfl | rfl | rfl | rfl
  · exact Or.inr (qToU16_limitPwm_bounds p.a)
  · exact Or.inr (qToU16_limitPwm_bounds p.b)
  · exact Or.inr (qToU16_limitPwm_bounds p.c)
  · trivial

theorem doVoltage_effects_ok (m : Machine) (v : Vec3) :
    ∀ e ∈ (ISR_DoVoltageControl m v).2, ccrWriteOK e :=
  doPwm_effects_ok _ _

theorem doVoltageFOC_effects_ok (t : TrigModel) (m : Machine) (th vo : ℚ) :
    ∀ e ∈ (ISR_DoVoltageFOC t m th vo).2, ccrWriteOK e :=
  doPwm_effects_ok _ _

theorem doCurrent_effects_ok (cfg : Config) (t : TrigModel) (sc : SinCos)
    (m : Machine) (a b : ℚ) :
    ∀ e ∈ (ISR_DoCurrent cfg t sc m a b).2, ccrWriteOK e :=
  doPwm_effects_ok _ _

theorem doPosition_effects_ok (cfg : Config) (t : TrigModel) (sc : SinCos)
    (m : Machine) (a b c : ℚ) :
    ∀ e ∈ (ISR_DoPosition cfg t sc m a b c).2, ccrWriteOK e :=
  doPwm_effects_ok _ _

theorem dispatch_effects_ok (cfg : Config) (t : TrigModel) (sc : SinCos)
    (d : CommandData) (m : Machine) :
    ∀ e ∈ (ISR_Dispatch cfg t sc d m).2, ccrWriteOK e := by
  intro e he
  unfold ISR_Dispatch at he
  cases hmode : (ISR_ClearPid m).status.mode
  case stopped =>
    simp [hmode, ISR_DoStopped] at he
    rcases he with rfl | rfl | rfl | rfl | rfl <;>
      first | exact Or.inl rfl | trivial
  case fault =>
    simp [hmode, ISR_DoFault] at he
    rcases he with rfl | rfl | rfl | rfl <;>
      first | exact Or.inl rfl | trivial
  case enabling => simp [hmode] at he
  case calibrating => simp [hmode] at he
  case calibrationComplete => simp [hmode] at he
  case pwm =>
    simp only [hmode] at he
    exact doPwm_effects_ok _ _ e (by simpa using he)
  case voltage =>
    simp only [hmode] at he
    exact doVoltage_effects_ok _ _ e (by simpa using he)
  case voltageFoc =>
    simp only [hmode] at he
    exact doVoltageFOC_effects_ok _ _ _ _ e (by simpa using he)
  case current =>
    simp only [hmode] at he
    exact doCurrent_effects_ok _ _ _ _ _ _ e (by simpa using he)
  case position =>
    simp only [hmode] at he
    exact doPosition_effects_ok _ _ _ _ _ _ _ e (by simpa using he)

theorem maybeChangeMode_effects_ok (m : Machine) (d : CommandData) :
    ∀ e ∈ (ISR_MaybeChangeMode m d).2, ccrWriteOK e := by
  intro e he
  unfold ISR_MaybeChangeMode at he
  cases hd : d.mode <;> cases hm : m.status.mode <;>
    simp [hd, hm, ISR_StartCalibrating] at he <;>
    rcases he with rfl | rfl | rfl | rfl <;>
    first | exact Or.inl rfl | trivial

theorem doControlCore_effects_ok (cfg : Config) (t : TrigModel)
    (sc : SinCos) (d1 : CommandData) (df : Bool) (m1 : Machine) :
    ∀ e ∈ (ISR_DoControlCore cfg t sc d1 df m1).2, ccrWriteOK e := by
  intro e he
  unfold ISR_DoControlCore at he
  by_cases h1 : d1.mode = m1.status.mode
  · rw [if_pos h1] at he
    exact dispatch_effects_ok _ _ _ _ _ e he
  · rw [if_neg h1] at he
    by_cases h2 : (ISR_MaybeChangeMode m1 d1).1.status.mode ≠ Mode.stopped
    · rw [if_pos h2] at he
      by_cases h3 : df = true
      · rw [if_pos h3] at he
        exact maybeChangeMode_effects_ok _ _ e he
      · rw [if_neg h3] at he
        by_cases h4 : cfg.max_voltage <
            (ISR_MaybeChangeMode m1 d1).1.status.bus_V
        · rw [if_pos h4] at he
          exact maybeChangeMode_effects_ok _ _ e he
        · rw [if_neg h4] at he
          rcases List.mem_append.mp he with h | h
          · exact maybeChangeMode_effects_ok _ _ e h
          · exact dispatch_effects_ok _ _ _ _ _ e h
    · rw [if_neg h2] at he
      rcases List.mem_append.mp he with h | h
      · exact maybeChangeMode_effects_ok _ _ e h
      · exact dispatch_effects_ok _ _ _ _ _ e h

theorem doControl_effects_ok (cfg : Config) (t : TrigModel) (sc : SinCos)
    (d : CommandData) (df : Bool) (m : Machine) :
    ∀ e ∈ (ISR_DoControl cfg t sc d df m).2.1, ccrWriteOK e := by
  intro e he
  unfold ISR_DoControl at he
  rcases hsp : d.set_position with _ | p <;>
    simp only [hsp] at he <;>
    exact doControlCore_effects_ok _ _ _ _ _ _ e he

/-- C2 counterexample: a Stopped-mode ISR cycle writes compare value 0,
which is below 0.1·counts, so not every hardware PWM write lies in
[0.1·counts, 0.9·counts]. -/
theorem c2_zero_write_counterexample :
    Effect.ccr1 0 ∈ (ISR_DoTimer cfg0 trig0 inp0 (mkCmd Mode.stopped) false
      machine0).2.1 ∧
    ¬((1/10 : ℚ) * (kPwmCounts : ℚ) ≤ ((0 : ℕ) : ℚ)) := by
  constructor
  · decide
  · norm_num [kPwmCounts]

/-- C2 amended: every compare-register write of an ISR cycle is either the
zero write of the Stopped/Fault/Enabling-entry paths or comes from the
clamped PWM path and lies in [⌊0.1·counts⌋, ⌊0.9·counts⌋] = [112, 1012];
in particular every duty ratio reaching the compare registers through
`ISR_DoPwmControl` is clamped to [0.1, 0.9] first. -/
theorem c2_amended_ccr_writes (cfg : Config) (t : TrigModel) (inp : Inputs)
    (d : CommandData) (df : Bool) (m : Machine) :
    ∀ e ∈ (ISR_DoTimer cfg t inp d df m).2.1, ccrWriteOK e := by
  rw [ISR_DoTimer_eq]
  exact doControl_effects_ok _ _ _ _ _ _

/-- C2 witness: the amended statement applied to the concrete zero write of
a Stopped cycle. -/
theorem c2_amended_ccr_writes_witness :
    ccrWriteOK (Effect.ccr1 0) :=
  c2_amended_ccr_writes cfg0 trig0 inp0 (mkCmd Mode.stopped) false machine0
    (Effect.ccr1 0) (by decide)

/-- Iterating the calibration step fewer than `kCalibrateCount` times from
zeroed accumulators just accumulates the constant readings. -/
theorem calibrating_iterate (m : Machine)
    (hc : m.calibrate_count = 0) (ha1 : m.calibrate_adc1 = 0)
    (ha2 : m.calibrate_adc2 = 0) :
    ∀ k, k < kCalibrateCount →
      (ISR_DoCalibrating)^[k] m =
        { m with calibrate_adc1 := k * m.status.adc1_raw
                 calibrate_adc2 := k * m.status.adc2_raw
                 calibrate_count := k } := by
  obtain ⟨st, ctl, vw, ca1, ca2, cc, r1, r2, r3, de, dp⟩ := m
  dsimp at hc ha1 ha2
  subst hc ha1 ha2
  intro k
  induction k with
  | zero => intro _; simp
  | succ n ih =>
    intro hk
    rw [Function.iterate_succ_apply', ih (Nat.lt_of_succ_lt hk)]
    unfold ISR_DoCalibrating
    simp only []
    rw [if_pos hk]
    simp [Nat.succ_mul]

/-- The 256th calibration step either faults on an out-of-band mean or
stores the constant readings as offsets and completes. -/
theorem calibrating_last (m : Machine)
    (hc : m.calibrate_count = 0) (ha1 : m.calibrate_adc1 = 0)
    (ha2 : m.calibrate_adc2 = 0) (hr1 : m.status.adc1_raw < 65536)
    (hr2 : m.status.adc2_raw < 65536) :
    (ISR_DoCalibrating)^[kCalibrateCount] m =
      if 200 < ((m.status.adc1_raw : ℤ) - 2048).natAbs ∨
          200 < ((m.status.adc2_raw : ℤ) - 2048).natAbs then
        { m with calibrate_adc1 := kCalibrateCount * m.status.adc1_raw
                 calibrate_adc2 := kCalibrateCount * m.status.adc2_raw
                 calibrate_count := kCalibrateCount
                 status := { m.status with
                             mode := Mode.fault
                             fault := Errc.calibrationFault } }
      else
        { m with calibrate_adc1 := kCalibrateCount * m.status.adc1_raw
                 calibrate_adc2 := kCalibrateCount * m.status.adc2_raw
                 calibrate_count := kCalibrateCount
                 status := { m.status with
                             adc1_offset := m.status.adc1_raw
                             adc2_offset := m.status.adc2_raw
                             mode := Mode.calibrationComplete } } := by
  have h255 := calibrating_iterate m hc ha1 ha2 255
    (by norm_num [kCalibrateCount])
  rw [show kCalibrateCount = 255 + 1 from rfl, Function.iterate_succ_apply',
    h255]
  have e1 : (255 * m.status.adc1_raw + m.status.adc1_raw) / kCalibrateCount
      % 65536 = m.status.adc1_raw := by
    have h : 255 * m.status.adc1_raw + m.status.adc1_raw =
        kCalibrateCount * m.status.adc1_raw := by
      norm_num [kCalibrateCount]; ring
    rw [h, Nat.mul_div_cancel_left _
      (by norm_num [kCalibrateCount] : 0 < kCalibrateCount),
      Nat.mod_eq_of_lt hr1]
  have e2 : (255 * m.status.adc2_raw + m.status.adc2_raw) / kCalibrateCount
      % 65536 = m.status.adc2_raw := by
    have h : 255 * m.status.adc2_raw + m.status.adc2_raw =
        kCalibrateCount * m.status.adc2_raw := by
      norm_num [kCalibrateCount]; ring
    rw [h, Nat.mul_div_cancel_left _
      (by norm_num [kCalibrateCount] : 0 < kCalibrateCount),
      Nat.mod_eq_of_lt hr2]
  unfold ISR_DoCalibrating
  simp only []
  rw [if_neg (by norm_num [kCalibrateCount])]
  simp only [e1, e2]
  split_ifs with hband
  · simp [Machine.mk.injEq, Status.mk.injEq, kCalibrateCount]
    constructor <;> ring
  · simp [Machine.mk.injEq, Status.mk.injEq, kCalibrateCount]
    constructor <;> ring

/-- C7 counterexample: constant readings r1 = 1000, r2 = 2048 run through
256 calibration cycles leave `adc1_offset` untouched (≠ 1000) and fault
instead, so the claim's unconditional "adc1_offset = r1" fails. -/
theorem c7_constant_readings_counterexample :
    ((ISR_DoCalibrating)^[kCalibrateCount]
      (calMachine 1000 2048)).status.adc1_offset ≠ 1000 ∧
    ((ISR_DoCalibrating)^[kCalibrateCount]
      (calMachine 1000 2048)).status.mode = Mode.fault := by
  rw [calibrating_last _ (by decide) (by decide) (by decide) (by decide)
    (by decide)]
  rw [if_pos (by decide)]
  exact ⟨by decide, rfl⟩

/-- C7 amended: in Calibrating the ISR accumulates the raw readings for
exactly 256 cycles and then takes the integer means; an out-of-band mean
(differing from 2048 by more than 200) faults with `CalibrationFault` and
leaves the offsets untouched; otherwise the offsets are set to the means —
so with constant in-band readings r1, r2 the offsets become exactly r1 and
r2 and the mode becomes CalibrationComplete. -/
theorem c7_amended_calibration (m : Machine)
    (hm : m.status.mode = Mode.calibrating)
    (hc : m.calibrate_count = 0) (ha1 : m.calibrate_adc1 = 0)
    (ha2 : m.calibrate_adc2 = 0)
    (hr1 : m.status.adc1_raw < 65536) (hr2 : m.status.adc2_raw < 65536) :
    (∀ k, k < kCalibrateCount →
      ((ISR_DoCalibrating)^[k] m).status.mode = Mode.calibrating ∧
      ((ISR_DoCalibrating)^[k] m).calibrate_count = k) ∧
    (((m.status.adc1_raw : ℤ) - 2048).natAbs ≤ 200 →
      ((m.status.adc2_raw : ℤ) - 2048).natAbs ≤ 200 →
      ((ISR_DoCalibrating)^[kCalibrateCount] m).status.mode =
        Mode.calibrationComplete ∧
      ((ISR_DoCalibrating)^[kCalibrateCount] m).status.adc1_offset =
        m.status.adc1_raw ∧
      ((ISR_DoCalibrating)^[kCalibrateCount] m).status.adc2_offset =
        m.status.adc2_raw) ∧
    (200 < ((m.status.adc1_raw : ℤ) - 2048).natAbs ∨
        200 < ((m.status.adc2_raw : ℤ) - 2048).natAbs →
      ((ISR_DoCalibrating)^[kCalibrateCount] m).status.mode = Mode.fault ∧
      ((ISR_DoCalibrating)^[kCalibrateCount] m).status.fault =
        Errc.calibrationFault ∧
      ((ISR_DoCalibrating)^[kCalibrateCount] m).status.adc1_offset =
        m.status.adc1_offset ∧
      ((ISR_DoCalibrating)^[kCalibrateCount] m).status.adc2_offset =
        m.status.adc2_offset) := by
  refine ⟨fun k hk => ?_, fun hb1 hb2 => ?_, fun hband => ?_⟩
  · rw [calibrating_iterate m hc ha1 ha2 k hk]
    exact ⟨hm, rfl⟩
  · rw [calibrating_last m hc ha1 ha2 hr1 hr2,
      if_neg (by push_neg; omega)]
    exact ⟨rfl, rfl, rfl⟩
  · rw [calibrating_last m hc ha1 ha2 hr1 hr2, if_pos hband]
    exact ⟨rfl, rfl, rfl, rfl⟩

/-- C7 witness: constant in-band readings 2048/2048 complete calibration
with both offsets equal to 2048. -/
theorem c7_amended_calibration_witness :
    ((ISR_DoCalibrating)^[kCalibrateCount]
      (calMachine 2048 2048)).status.mode = Mode.calibrationComplete ∧
    ((ISR_DoCalibrating)^[kCalibrateCount]
      (calMachine 2048 2048)).status.adc1_offset = 2048 ∧
    ((ISR_DoCalibrating)^[kCalibrateCount]
      (calMachine 2048 2048)).status.adc2_offset = 2048 :=
  (c7_amended_calibration (calMachine 2048 2048)
    (by decide) (by decide) (by decide) (by decide) (by decide)
    (by decide)).2.1 (by decide) (by decide)

/-- Mode reconciliation from a non-Stopped state with a non-Stopped command
performs no hardware effects, leaves every mirror field except the mode
unchanged, never lands in Stopped, and from Fault stays in Fault. -/
theorem maybeChangeMode_nonstopped (m : Machine) (d : CommandData)
    (hm : m.status.mode ≠ Mode.stopped) (hd : d.mode ≠ Mode.stopped) :
    (ISR_MaybeChangeMode m d).1.status.mode ≠ Mode.stopped ∧
    (ISR_MaybeChangeMode m d).2 = [] ∧
    (ISR_MaybeChangeMode m d).1.status.bus_V = m.status.bus_V ∧
    (ISR_MaybeChangeMode m d).1.status.fault = m.status.fault ∧
    (ISR_MaybeChangeMode m d).1.ccr1 = m.ccr1 ∧
    (ISR_MaybeChangeMode m d).1.ccr2 = m.ccr2 ∧
    (ISR_MaybeChangeMode m d).1.ccr3 = m.ccr3 ∧
    (ISR_MaybeChangeMode m d).1.driver_powered = m.driver_powered ∧
    (m.status.mode = Mode.fault →
      (ISR_MaybeChangeMode m d).1.status.mode = Mode.fault) := by
  cases hdm : d.mode <;> cases hmm : m.status.mode <;>
    simp_all [ISR_MaybeChangeMode]

/-- Dispatching in Fault mode unpowers the driver and zeroes the compare
registers, preserving the fault code. -/
theorem ISR_Dispatch_fault (cfg : Config) (t : TrigModel) (sc : SinCos)
    (d : CommandData) (m : Machine) (hm : m.status.mode = Mode.fault) :
    (ISR_Dispatch cfg t sc d m).2 =
      [Effect.power false, Effect.ccr1 0, Effect.ccr2 0, Effect.ccr3 0] ∧
    (ISR_Dispatch cfg t sc d m).1.ccr1 = 0 ∧
    (ISR_Dispatch cfg t sc d m).1.ccr2 = 0 ∧
    (ISR_Dispatch cfg t sc d m).1.ccr3 = 0 ∧
    (ISR_Dispatch cfg t sc d m).1.driver_powered = false ∧
    (ISR_Dispatch cfg t sc d m).1.status.mode = Mode.fault ∧
    (ISR_Dispatch cfg t sc d m).1.status.fault = m.status.fault := by
  unfold ISR_Dispatch
  simp [ISR_ClearPid_mode, ISR_ClearPid_fault, hm, ISR_DoFault]

/-- C9 counterexample: when the driver fault is detected on the very cycle
that leaves Stopped, `ISR_StartCalibrating` has already zeroed the compare
registers and called `Power(false)` before the check returns, so the
detection cycle is not effect-free. -/
theorem c9_power_called_on_detection_counterexample :
    (ISR_DoTimer cfg0 trig0 inp0 (mkCmd Mode.current) true
      machine0).1.status.mode = Mode.fault ∧
    (ISR_DoTimer cfg0 trig0 inp0 (mkCmd Mode.current) true
      machine0).1.status.fault = Errc.motorDriverFault ∧
    Effect.power false ∈
      (ISR_DoTimer cfg0 trig0 inp0 (mkCmd Mode.current) true
        machine0).2.1 := by
  refine ⟨?_, ?_, ?_⟩ <;> decide

/-- The control tail's detection behaviour on a cycle whose current and
commanded modes both differ from Stopped. -/
theorem doControlCore_detect (cfg : Config) (t : TrigModel) (sc : SinCos)
    (d1 : CommandData) (m1 : Machine)
    (hdm : d1.mode ≠ m1.status.mode) (hmm : m1.status.mode ≠ Mode.stopped)
    (hds : d1.mode ≠ Mode.stopped) :
    ((ISR_DoControlCore cfg t sc d1 true m1).1.status.mode = Mode.fault ∧
     (ISR_DoControlCore cfg t sc d1 true m1).1.status.fault =
       Errc.motorDriverFault ∧
     (ISR_DoControlCore cfg t sc d1 true m1).2 = [] ∧
     (ISR_DoControlCore cfg t sc d1 true m1).1.ccr1 = m1.ccr1 ∧
     (ISR_DoControlCore cfg t sc d1 true m1).1.ccr2 = m1.ccr2 ∧
     (ISR_DoControlCore cfg t sc d1 true m1).1.ccr3 = m1.ccr3 ∧
     (ISR_DoControlCore cfg t sc d1 true m1).1.driver_powered =
       m1.driver_powered) ∧
    (cfg.max_voltage < m1.status.bus_V →
     (ISR_DoControlCore cfg t sc d1 false m1).1.status.mode = Mode.fault ∧
     (ISR_DoControlCore cfg t sc d1 false m1).1.status.fault =
       Errc.overVoltage ∧
     (ISR_DoControlCore cfg t sc d1 false m1).2 = [] ∧
     (ISR_DoControlCore cfg t sc d1 false m1).1.ccr1 = m1.ccr1 ∧
     (ISR_DoControlCore cfg t sc d1 false m1).1.ccr2 = m1.ccr2 ∧
     (ISR_DoControlCore cfg t sc d1 false m1).1.ccr3 = m1.ccr3 ∧
     (ISR_DoControlCore cfg t sc d1 false m1).1.driver_powered =
       m1.driver_powered) ∧
    (m1.status.mode = Mode.fault → ¬ cfg.max_voltage < m1.status.bus_V →
     (ISR_DoControlCore cfg t sc d1 false m1).2 =
       [Effect.power false, Effect.ccr1 0, Effect.ccr2 0, Effect.ccr3 0] ∧
     (ISR_DoControlCore cfg t sc d1 false m1).1.ccr1 = 0 ∧
     (ISR_DoControlCore cfg t sc d1 false m1).1.ccr2 = 0 ∧
     (ISR_DoControlCore cfg t sc d1 false m1).1.ccr3 = 0 ∧
     (ISR_DoControlCore cfg t sc d1 false m1).1.driver_powered = false ∧
     (ISR_DoControlCore cfg t sc d1 false m1).1.status.mode =
       Mode.fault) := by
  obtain ⟨hns, heff, hbus, hflt, hc1, hc2, hc3, hpw, hff⟩ :=
    maybeChangeMode_nonstopped m1 d1 hmm hds
  refine ⟨?_, fun hov => ?_, fun hmf hnov => ?_⟩
  · unfold ISR_DoControlCore
    rw [if_neg hdm, if_pos hns, if_pos rfl]
    exact ⟨rfl, rfl, heff, hc1, hc2, hc3, hpw⟩
  · unfold ISR_DoControlCore
    rw [if_neg hdm, if_pos hns, if_neg (by decide : ¬(false = true)),
      if_pos (hbus.symm ▸ hov)]
    exact ⟨rfl, rfl, heff, hc1, hc2, hc3, hpw⟩
  · unfold ISR_DoControlCore
    rw [if_neg hdm, if_pos hns, if_neg (by decide : ¬(false = true)),
      if_neg (hbus.symm ▸ hnov)]
    obtain ⟨de, dc1, dc2, dc3, dpw, dmode, dflt⟩ :=
      ISR_Dispatch_fault cfg t sc d1 _ (hff hmf)
    refine ⟨?_, dc1, dc2, dc3, dpw, dmode⟩
    rw [heff]
    simpa using de

/-- C9 amended: when a driver fault or over-voltage is detected during mode
reconciliation on a cycle that does not pass through `ISR_StartCalibrating`
(current mode and commanded mode both differ from Stopped), the control
step sets Fault and the fault code and returns before the dispatch: it
performs no hardware effects, so the compare registers and the driver power
state keep their previous values; the Fault dispatch's unpowering and
zeroing run on a later cycle once the reconciliation checks pass. -/
theorem c9_amended_fault_detection_frame (cfg : Config) (t : TrigModel)
    (sc : SinCos) (d : CommandData) (m : Machine)
    (hmm : m.status.mode ≠ Mode.stopped) (hdm : d.mode ≠ m.status.mode)
    (hds : d.mode ≠ Mode.stopped) :
    ((ISR_DoControl cfg t sc d true m).1.status.mode = Mode.fault ∧
     (ISR_DoControl cfg t sc d true m).1.status.fault =
       Errc.motorDriverFault ∧
     (ISR_DoControl cfg t sc d true m).2.1 = [] ∧
     (ISR_DoControl cfg t sc d true m).1.ccr1 = m.ccr1 ∧
     (ISR_DoControl cfg t sc d true m).1.ccr2 = m.ccr2 ∧
     (ISR_DoControl cfg t sc d true m).1.ccr3 = m.ccr3 ∧
     (ISR_DoControl cfg t sc d true m).1.driver_powered =
       m.driver_powered) ∧
    (cfg.max_voltage < m.status.bus_V →
     (ISR_DoControl cfg t sc d false m).1.status.mode = Mode.fault ∧
     (ISR_DoControl cfg t sc d false m).1.status.fault = Errc.overVoltage ∧
     (ISR_DoControl cfg t sc d false m).2.1 = [] ∧
     (ISR_DoControl cfg t sc d false m).1.ccr1 = m.ccr1 ∧
     (ISR_DoControl cfg t sc d false m).1.ccr2 = m.ccr2 ∧
     (ISR_DoControl cfg t sc d false m).1.ccr3 = m.ccr3 ∧
     (ISR_DoControl cfg t sc d false m).1.driver_powered =
       m.driver_powered) ∧
    (m.status.mode = Mode.fault → ¬ cfg.max_voltage < m.status.bus_V →
     (ISR_DoControl cfg t sc d false m).2.1 =
       [Effect.power false, Effect.ccr1 0, Effect.ccr2 0, Effect.ccr3 0] ∧
     (ISR_DoControl cfg t sc d false m).1.ccr1 = 0 ∧
     (ISR_DoControl cfg t sc d false m).1.ccr2 = 0 ∧
     (ISR_DoControl cfg t sc d false m).1.ccr3 = 0 ∧
     (ISR_DoControl cfg t sc d false m).1.driver_powered = false ∧
     (ISR_DoControl cfg t sc d false m).1.status.mode = Mode.fault) := by
  rcases hsp : d.set_position with _ | p <;>
  · simp only [ISR_DoControl, hsp]
    exact doControlCore_detect cfg t sc _ _ hdm hmm hds

/-- C9 witness: a Current command issued from Voltage mode with the driver
fault flag raised faults with `MotorDriverFault` and performs no hardware
effects on the detection cycle. -/
theorem c9_amended_fault_detection_frame_witness :
    (ISR_DoControl cfg0 trig0 sc0 (mkCmd Mode.current) true
      { machine0 with status := { status0 with mode := Mode.voltage } }
      ).1.status.mode = Mode.fault ∧
    (ISR_DoControl cfg0 trig0 sc0 (mkCmd Mode.current) true
      { machine0 with status := { status0 with mode := Mode.voltage } }
      ).1.status.fault = Errc.motorDriverFault ∧
    (ISR_DoControl cfg0 trig0 sc0 (mkCmd Mode.current) true
      { machine0 with status := { status0 with mode := Mode.voltage } }
      ).2.1 = [] :=
  ⟨((c9_amended_fault_detection_frame cfg0 trig0 sc0 (mkCmd Mode.current)
      { machine0 with status := { status0 with mode := Mode.voltage } }
      (by decide) (by decide) (by decide)).1).1,
   ((c9_amended_fault_detection_frame cfg0 trig0 sc0 (mkCmd Mode.current)
      { machine0 with status := { status0 with mode := Mode.voltage } }
      (by decide) (by decide) (by decide)).1).2.1,
   ((c9_amended_fault_detection_frame cfg0 trig0 sc0 (mkCmd Mode.current)
      { machine0 with status := { status0 with mode := Mode.voltage } }
      (by decide) (by decide) (by decide)).1).2.2.1⟩

/-- The calibration step's mode and fault outcome depend only on the mode,
fault, raw ADC readings and calibration accumulators. -/
theorem ISR_DoCalibrating_mode_fault_congr (ma mb : Machine)
    (h1 : ma.status.mode = mb.status.mode)
    (h2 : ma.status.fault = mb.status.fault)
    (h3 : ma.status.adc1_raw = mb.status.adc1_raw)
    (h4 : ma.status.adc2_raw = mb.status.adc2_raw)
    (h5 : ma.calibrate_adc1 = mb.calibrate_adc1)
    (h6 : ma.calibrate_adc2 = mb.calibrate_adc2)
    (h7 : ma.calibrate_count = mb.calibrate_count) :
    (ISR_DoCalibrating ma).status.mode = (ISR_DoCalibrating mb).status.mode ∧
    (ISR_DoCalibrating ma).status.fault =
      (ISR_DoCalibrating mb).status.fault := by
  unfold ISR_DoCalibrating
  rw [h3, h4, h5, h6, h7]
  dsimp only
  split_ifs <;> simp [h1, h2]

/-- The dispatch's mode and fault outcome depend only on the mode, fault,
raw ADC readings and calibration accumulators of the entering state (in
particular not on `bus_V`). -/
theorem ISR_Dispatch_mode_fault_congr (cfg : Config) (t : TrigModel)
    (sc : SinCos) (d : CommandData) (ma mb : Machine)
    (h1 : ma.status.mode = mb.status.mode)
    (h2 : ma.status.fault = mb.status.fault)
    (h3 : ma.status.adc1_raw = mb.status.adc1_raw)
    (h4 : ma.status.adc2_raw = mb.status.adc2_raw)
    (h5 : ma.calibrate_adc1 = mb.calibrate_adc1)
    (h6 : ma.calibrate_adc2 = mb.calibrate_adc2)
    (h7 : ma.calibrate_count = mb.calibrate_count) :
    (ISR_Dispatch cfg t sc d ma).1.status.mode =
      (ISR_Dispatch cfg t sc d mb).1.status.mode ∧
    (ISR_Dispatch cfg t sc d ma).1.status.fault =
      (ISR_Dispatch cfg t sc d mb).1.status.fault := by
  obtain ⟨fa1, fa2, fa3, fa4, fa0, fa5, fa6, fa7, farest⟩ :=
    ISR_ClearPid_fields ma
  obtain ⟨fb1, fb2, fb3, fb4, fb0, fb5, fb6, fb7, fbrest⟩ :=
    ISR_ClearPid_fields mb
  have hy : (ISR_ClearPid ma).status.mode = (ISR_ClearPid mb).status.mode :=
    by rw [ISR_ClearPid_mode, ISR_ClearPid_mode, h1]
  have hz : (ISR_ClearPid ma).status.fault =
      (ISR_ClearPid mb).status.fault := by
    rw [ISR_ClearPid_fault, ISR_ClearPid_fault, h2]
  unfold ISR_Dispatch
  dsimp only
  cases hx : (ISR_ClearPid mb).status.mode <;> rw [hy.trans hx]
  case stopped => simp [ISR_DoStopped]
  case fault => simp [ISR_DoFault, hz, hx, hy.trans hx]
  case enabling => simp
  case calibrating =>
    rw [if_pos (show Mode.calibrating ≠ Mode.fault by decide)]
    exact ISR_DoCalibrating_mode_fault_congr _ _ rfl rfl
      (fa1.trans (h3.trans fb1.symm)) (fa2.trans (h4.trans fb2.symm))
      (fa5.trans (h5.trans fb5.symm)) (fa6.trans (h6.trans fb6.symm))
      (fa7.trans (h7.trans fb7.symm))
  case calibrationComplete => simp
  case pwm => simp [ISR_DoPwmControl_status]
  case voltage => simp [ISR_DoVoltageControl_status]
  case voltageFoc => simp [ISR_DoVoltageFOC_status]
  case current => simp [ISR_DoCurrent_mode, ISR_DoCurrent_fault]
  case position => simp [ISR_DoPosition_mode, ISR_DoPosition_fault]

/-- The control tail on a cycle whose commanded mode equals the current
mode: the resulting mode and fault are unchanged if the driver fault flag
is cleared and the bus voltage replaced arbitrarily. -/
theorem doControlCore_same_mode (cfg : Config) (t : TrigModel) (sc : SinCos)
    (d1 : CommandData) (df : Bool) (m1 : Machine) (bv : ℚ)
    (h : d1.mode = m1.status.mode) :
    (ISR_DoControlCore cfg t sc d1 df m1).1.status.mode =
      (ISR_DoControlCore cfg t sc d1 false
        { m1 with status := { m1.status with bus_V := bv } }).1.status.mode ∧
    (ISR_DoControlCore cfg t sc d1 df m1).1.status.fault =
      (ISR_DoControlCore cfg t sc d1 false
        { m1 with status :=
          { m1.status with bus_V := bv } }).1.status.fault := by
  unfold ISR_DoControlCore
  rw [if_pos h, if_pos (show d1.mode =
    ({ m1 with status := { m1.status with bus_V := bv } } :
      Machine).status.mode from h)]
  exact ISR_Dispatch_mode_fault_congr cfg t sc d1 m1 _ rfl rfl rfl rfl rfl
    rfl rfl

/-- C10: the driver-fault and over-voltage checks run only on cycles whose
commanded mode differs from the current mode; when they agree, the
resulting mode and fault are independent of the driver fault flag and of
the bus voltage, so a persistent over-voltage or driver fault in
steady-state operation is never detected. -/
theorem c10_steady_state_no_detection (cfg : Config) (t : TrigModel)
    (sc : SinCos) (d : CommandData) (df : Bool) (m : Machine) (bv : ℚ)
    (h : d.mode = m.status.mode) :
    (ISR_DoControl cfg t sc d df m).1.status.mode =
      (ISR_DoControl cfg t sc d false
        { m with status := { m.status with bus_V := bv } }).1.status.mode ∧
    (ISR_DoControl cfg t sc d df m).1.status.fault =
      (ISR_DoControl cfg t sc d false
        { m with status :=
          { m.status with bus_V := bv } }).1.status.fault := by
  rcases hsp : d.set_position with _ | p <;>
  · simp only [ISR_DoControl, hsp]
    exact doControlCore_same_mode cfg t sc _ df _ bv h

/-- C10 witness: a Current-mode steady-state cycle with the driver fault
flag raised and the bus voltage replaced by 1000 yields the same mode and
fault as the undisturbed cycle. -/
theorem c10_steady_state_no_detection_witness :
    (ISR_DoControl cfg0 trig0 sc0 (mkCmd Mode.current) true
      { machine0 with status :=
        { status0 with mode := Mode.current } }).1.status.mode =
      (ISR_DoControl cfg0 trig0 sc0 (mkCmd Mode.current) false
        { { machine0 with status := { status0 with mode := Mode.current } }
          with status :=
          { { status0 with mode := Mode.current } with
            bus_V := 1000 } }).1.status.mode ∧
    (ISR_DoControl cfg0 trig0 sc0 (mkCmd Mode.current) true
      { machine0 with status :=
        { status0 with mode := Mode.current } }).1.status.fault =
      (ISR_DoControl cfg0 trig0 sc0 (mkCmd Mode.current) false
        { { machine0 with status := { status0 with mode := Mode.current } }
          with status :=
          { { status0 with mode := Mode.current } with
            bus_V := 1000 } }).1.status.fault :=
  c10_steady_state_no_detection cfg0 trig0 sc0 (mkCmd Mode.current) true
    { machine0 with status := { status0 with mode := Mode.current } } 1000
    (by decide)

/-- The calibration step keeps the mode, faults, or completes. -/
theorem ISR_DoCalibrating_mode_cases (m : Machine) :
    (ISR_DoCalibrating m).status.mode = m.status.mode ∨
    (ISR_DoCalibrating m).status.mode = Mode.fault ∨
    (ISR_DoCalibrating m).status.mode = Mode.calibrationComplete := by
  unfold ISR_DoCalibrating
  dsimp only
  split_ifs <;> simp

/-- The dispatch keeps the mode except that Calibrating may fault or
complete. -/
theorem ISR_Dispatch_mode_cases (cfg : Config) (t : TrigModel) (sc : SinCos)
    (d : CommandData) (m : Machine) :
    (ISR_Dispatch cfg t sc d m).1.status.mode = m.status.mode ∨
    (m.status.mode = Mode.calibrating ∧
      ((ISR_Dispatch cfg t sc d m).1.status.mode = Mode.fault ∨
       (ISR_Dispatch cfg t sc d m).1.status.mode =
         Mode.calibrationComplete)) := by
  have hcm := ISR_ClearPid_mode m
  unfold ISR_Dispatch
  dsimp only
  cases hx : (ISR_ClearPid m).status.mode
  case stopped =>
    rw [if_pos (show Mode.stopped ≠ Mode.fault by decide)]
    exact Or.inl (hcm.symm.trans hx).symm
  case fault =>
    rw [if_neg (show ¬Mode.fault ≠ Mode.fault by decide), hx]
    exact Or.inl hcm
  case enabling =>
    rw [if_pos (show Mode.enabling ≠ Mode.fault by decide)]
    exact Or.inl (hcm.symm.trans hx).symm
  case calibrating =>
    have hmm : m.status.mode = Mode.calibrating := hcm.symm.trans hx
    rw [if_pos (show Mode.calibrating ≠ Mode.fault by decide)]
    have hcal := ISR_DoCalibrating_mode_cases
      { ISR_ClearPid m with status :=
        { (ISR_ClearPid m).status with fault := Errc.success } }
    dsimp only at hcal
    rw [hx] at hcal
    rcases hcal with h | h | h
    · exact Or.inl (h.trans hmm.symm)
    · exact Or.inr ⟨hmm, Or.inl h⟩
    · exact Or.inr ⟨hmm, Or.inr h⟩
  case calibrationComplete =>
    rw [if_pos (show Mode.calibrationComplete ≠ Mode.fault by decide)]
    exact Or.inl (hcm.symm.trans hx).symm
  case pwm =>
    rw [if_pos (show Mode.pwm ≠ Mode.fault by decide)]
    exact Or.inl (hcm.symm.trans hx).symm
  case voltage =>
    rw [if_pos (show Mode.voltage ≠ Mode.fault by decide)]
    exact Or.inl (hcm.symm.trans hx).symm
  case voltageFoc =>
    rw [if_pos (show Mode.voltageFoc ≠ Mode.fault by decide)]
    exact Or.inl (hcm.symm.trans hx).symm
  case current =>
    rw [if_pos (show Mode.current ≠ Mode.fault by decide)]
    exact Or.inl (hcm.symm.trans hx).symm
  case position =>
    rw [if_pos (show Mode.position ≠ Mode.fault by decide)]
    exact Or.inl (hcm.symm.trans hx).symm

/-- The possible mode outcomes of `ISR_MaybeChangeMode`, with the
circumstances that produce each. -/
theorem maybeChangeMode_mode_cases (m : Machine) (d : CommandData) :
    ((ISR_MaybeChangeMode m d).1.status.mode = m.status.mode ∧
      (d.mode = Mode.enabling ∨ d.mode = Mode.fault ∨
       d.mode = Mode.calibrating ∨ d.mode = Mode.calibrationComplete ∨
       m.status.mode = Mode.fault ∨ m.status.mode = Mode.enabling ∨
       m.status.mode = Mode.calibrating)) ∨
    (d.mode = Mode.stopped ∧
      (ISR_MaybeChangeMode m d).1.status.mode = Mode.stopped) ∨
    (m.status.mode = Mode.stopped ∧ modeIsActive d.mode = true ∧
      (ISR_MaybeChangeMode m d).1.status.mode = Mode.enabling) ∨
    ((m.status.mode = Mode.calibrationComplete ∨
        modeIsActive m.status.mode = true) ∧ modeIsActive d.mode = true ∧
      (ISR_MaybeChangeMode m d).1.status.mode = d.mode) := by
  cases hd : d.mode <;> cases hm : m.status.mode <;>
    simp [ISR_MaybeChangeMode, ISR_StartCalibrating, modeIsActive, hd, hm]

theorem modeIsActive_ne_stopped {x : Mode} (h : modeIsActive x = true) :
    x ≠ Mode.stopped := by cases x <;> simp_all [modeIsActive]

theorem modeIsActive_ne_calibrating {x : Mode}
    (h : modeIsActive x = true) : x ≠ Mode.calibrating := by
  cases x <;> simp_all [modeIsActive]

/-- The possible mode outcomes of one control tail, with the circumstances
that produce each: a fault entry, keeping the current mode, an accepted
Stopped command, the Stopped-to-Enabling calibration entry, adopting a
commanded active mode, or completing calibration. -/
theorem doControlCore_mode_cases (cfg : Config) (t : TrigModel)
    (sc : SinCos) (d1 : CommandData) (df : Bool) (m1 : Machine) :
    (ISR_DoControlCore cfg t sc d1 df m1).1.status.mode = Mode.fault ∨
    ((ISR_DoControlCore cfg t sc d1 df m1).1.status.mode =
        m1.status.mode ∧
      (d1.mode = m1.status.mode ∨
       (d1.mode = Mode.enabling ∨ d1.mode = Mode.fault ∨
        d1.mode = Mode.calibrating ∨ d1.mode = Mode.calibrationComplete ∨
        m1.status.mode = Mode.fault ∨ m1.status.mode = Mode.enabling ∨
        m1.status.mode = Mode.calibrating))) ∨
    (d1.mode = Mode.stopped ∧
      (ISR_DoControlCore cfg t sc d1 df m1).1.status.mode =
        Mode.stopped) ∨
    (m1.status.mode = Mode.stopped ∧ modeIsActive d1.mode = true ∧
      (ISR_DoControlCore cfg t sc d1 df m1).1.status.mode =
        Mode.enabling) ∨
    ((m1.status.mode = Mode.calibrationComplete ∨
        modeIsActive m1.status.mode = true) ∧ modeIsActive d1.mode = true ∧
      (ISR_DoControlCore cfg t sc d1 df m1).1.status.mode = d1.mode) ∨
    (m1.status.mode = Mode.calibrating ∧
      (ISR_DoControlCore cfg t sc d1 df m1).1.status.mode =
        Mode.calibrationComplete) := by
  by_cases h1 : d1.mode = m1.status.mode
  · unfold ISR_DoControlCore
    rw [if_pos h1]
    rcases ISR_Dispatch_mode_cases cfg t sc d1 m1 with h | ⟨hc, h | h⟩
    · exact Or.inr (Or.inl ⟨h, Or.inl h1⟩)
    · exact Or.inl h
    · exact Or.inr (Or.inr (Or.inr (Or.inr (Or.inr ⟨hc, h⟩))))
  · unfold ISR_DoControlCore
    rw [if_neg h1]
    dsimp only
    rcases maybeChangeMode_mode_cases m1 d1 with
      ⟨hk, hr⟩ | ⟨hds, hk⟩ | ⟨hms, hda, hk⟩ | ⟨hcc, hda, hk⟩
    · by_cases h2 : (ISR_MaybeChangeMode m1 d1).1.status.mode ≠ Mode.stopped
      · rw [if_pos h2]
        by_cases h3 : df = true
        · rw [if_pos h3]
          exact Or.inl rfl
        · rw [if_neg h3]
          by_cases h4 : cfg.max_voltage <
              (ISR_MaybeChangeMode m1 d1).1.status.bus_V
          · rw [if_pos h4]
            exact Or.inl rfl
          · rw [if_neg h4]
            rcases ISR_Dispatch_mode_cases cfg t sc d1
              (ISR_MaybeChangeMode m1 d1).1 with h | ⟨hdc, h | h⟩
            · exact Or.inr (Or.inl ⟨h.trans hk, Or.inr hr⟩)
            · exact Or.inl h
            · exact Or.inr (Or.inr (Or.inr (Or.inr (Or.inr
                ⟨hk.symm.trans hdc, h⟩))))
      · rw [if_neg h2]
        have hst := not_not.mp h2
        rcases ISR_Dispatch_mode_cases cfg t sc d1
          (ISR_MaybeChangeMode m1 d1).1 with h | ⟨hdc, h | h⟩
        · exact Or.inr (Or.inl ⟨h.trans hk, Or.inr hr⟩)
        · exact absurd (hst.symm.trans hdc) (by decide)
        · exact absurd (hst.symm.trans hdc) (by decide)
    · have hst : ¬(ISR_MaybeChangeMode m1 d1).1.status.mode ≠
          Mode.stopped := not_not.mpr hk
      rw [if_neg hst]
      rcases ISR_Dispatch_mode_cases cfg t sc d1
        (ISR_MaybeChangeMode m1 d1).1 with h | ⟨hdc, h | h⟩
      · exact Or.inr (Or.inr (Or.inl ⟨hds, h.trans hk⟩))
      · exact absurd (hk.symm.trans hdc) (by decide)
      · exact absurd (hk.symm.trans hdc) (by decide)
    · have hne : (ISR_MaybeChangeMode m1 d1).1.status.mode ≠
          Mode.stopped := by rw [hk]; decide
      rw [if_pos hne]
      by_cases h3 : df = true
      · rw [if_pos h3]
        exact Or.inl rfl
      · rw [if_neg h3]
        by_cases h4 : cfg.max_voltage <
            (ISR_MaybeChangeMode m1 d1).1.status.bus_V
        · rw [if_pos h4]
          exact Or.inl rfl
        · rw [if_neg h4]
          rcases ISR_Dispatch_mode_cases cfg t sc d1
            (ISR_MaybeChangeMode m1 d1).1 with h | ⟨hdc, h | h⟩
          · exact Or.inr (Or.inr (Or.inr (Or.inl ⟨hms, hda, h.trans hk⟩)))
          · exact absurd (hk.symm.trans hdc) (by decide)
          · exact absurd (hk.symm.trans hdc) (by decide)
    · have hne : (ISR_MaybeChangeMode m1 d1).1.status.mode ≠
          Mode.stopped := by rw [hk]; exact modeIsActive_ne_stopped hda
      rw [if_pos hne]
      by_cases h3 : df = true
      · rw [if_pos h3]
        exact Or.inl rfl
      · rw [if_neg h3]
        by_cases h4 : cfg.max_voltage <
            (ISR_MaybeChangeMode m1 d1).1.status.bus_V
        · rw [if_pos h4]
          exact Or.inl rfl
        · rw [if_neg h4]
          rcases ISR_Dispatch_mode_cases cfg t sc d1
            (ISR_MaybeChangeMode m1 d1).1 with h | ⟨hdc, h | h⟩
          · exact Or.inr (Or.inr (Or.inr (Or.inr (Or.inl
              ⟨hcc, hda, h.trans hk⟩))))
          · exact absurd (hk.symm.trans hdc)
              (modeIsActive_ne_calibrating hda)
          · exact absurd (hk.symm.trans hdc)
              (modeIsActive_ne_calibrating hda)

/-- The possible mode outcomes of one control step (`doControlCore_mode_cases`
lifted over the `set_position` handling). -/
theorem doControl_mode_cases (cfg : Config) (t : TrigModel) (sc : SinCos)
    (d : CommandData) (df : Bool) (m : Machine) :
    (ISR_DoControl cfg t sc d df m).1.status.mode = Mode.fault ∨
    ((ISR_DoControl cfg t sc d df m).1.status.mode = m.status.mode ∧
      (d.mode = m.status.mode ∨
       (d.mode = Mode.enabling ∨ d.mode = Mode.fault ∨
        d.mode = Mode.calibrating ∨ d.mode = Mode.calibrationComplete ∨
        m.status.mode = Mode.fault ∨ m.status.mode = Mode.enabling ∨
        m.status.mode = Mode.calibrating))) ∨
    (d.mode = Mode.stopped ∧
      (ISR_DoControl cfg t sc d df m).1.status.mode = Mode.stopped) ∨
    (m.status.mode = Mode.stopped ∧ modeIsActive d.mode = true ∧
      (ISR_DoControl cfg t sc d df m).1.status.mode = Mode.enabling) ∨
    ((m.status.mode = Mode.calibrationComplete ∨
        modeIsActive m.status.mode = true) ∧ modeIsActive d.mode = true ∧
      (ISR_DoControl cfg t sc d df m).1.status.mode = d.mode) ∨
    (m.status.mode = Mode.calibrating ∧
      (ISR_DoControl cfg t sc d df m).1.status.mode =
        Mode.calibrationComplete) := by
  rcases hsp : d.set_position with _ | p <;>
  · simp only [ISR_DoControl, hsp]
    exact doControlCore_mode_cases cfg t sc _ df _

/-- From CalibrationComplete, a commanded active mode is adopted by the
control tail when the reconciliation checks pass. -/
theorem doControlCore_adopt (cfg : Config) (t : TrigModel) (sc : SinCos)
    (d1 : CommandData) (m1 : Machine)
    (hm : m1.status.mode = Mode.calibrationComplete)
    (hda : modeIsActive d1.mode = true)
    (hbv : ¬ cfg.max_voltage < m1.status.bus_V) :
    (ISR_DoControlCore cfg t sc d1 false m1).1.status.mode = d1.mode := by
  have hdm : d1.mode ≠ m1.status.mode := by
    rw [hm]
    intro hcon
    rw [hcon] at hda
    exact absurd hda (by decide)
  have hds : d1.mode ≠ Mode.stopped := modeIsActive_ne_stopped hda
  have hmm : m1.status.mode ≠ Mode.stopped := by rw [hm]; decide
  obtain ⟨hns, heff, hbus, hflt, hc1, hc2, hc3, hpw, hff⟩ :=
    maybeChangeMode_nonstopped m1 d1 hmm hds
  have hadopt : (ISR_MaybeChangeMode m1 d1).1.status.mode = d1.mode := by
    rcases maybeChangeMode_mode_cases m1 d1 with
      ⟨hk, hr⟩ | ⟨h', _⟩ | ⟨h', _, _⟩ | ⟨_, _, hk⟩
    · rcases hr with h' | h' | h' | h' | h' | h' | h'
      · rw [h'] at hda; exact absurd hda (by decide)
      · rw [h'] at hda; exact absurd hda (by decide)
      · rw [h'] at hda; exact absurd hda (by decide)
      · rw [h'] at hda; exact absurd hda (by decide)
      · exact absurd (h'.symm.trans hm) (by decide)
      · exact absurd (h'.symm.trans hm) (by decide)
      · exact absurd (h'.symm.trans hm) (by decide)
    · exact absurd h' hds
    · exact absurd (h'.symm.trans hm) (by decide)
    · exact hk
  unfold ISR_DoControlCore
  rw [if_neg hdm,
    if_pos (show (ISR_MaybeChangeMode m1 d1).1.status.mode ≠ Mode.stopped
      from by rw [hadopt]; exact modeIsActive_ne_stopped hda),
    if_neg (show ¬(false = true) by decide), if_neg (hbus.symm ▸ hbv)]
  rcases ISR_Dispatch_mode_cases cfg t sc d1
    (ISR_MaybeChangeMode m1 d1).1 with h | ⟨hdc, _⟩
  · exact h.trans hadopt
  · exact absurd (hadopt.symm.trans hdc) (modeIsActive_ne_calibrating hda)

/-- C4: every path from Stopped to an active mode goes through Enabling,
Calibrating and CalibrationComplete in order: (a) an active-mode command
from Stopped runs `ISR_StartCalibrating`, entering Enabling with zeroed
PWM, unpowered driver and zeroed accumulators; (b) the ISR alone never
advances Enabling; (c) only the foreground `PollMillisecond` advances
Enabling to Calibrating, enabling the driver first, and does nothing in
any other mode; (d) the ISR enters Calibrating only from Calibrating
itself; (e) CalibrationComplete arises only from Calibrating or itself;
(f) an active mode is reached only from CalibrationComplete or another
active mode, and is then the commanded mode; (g) from CalibrationComplete
a commanded active mode is adopted when the reconciliation checks pass. -/
theorem c4_stopped_to_active_path (cfg : Config) (t : TrigModel)
    (sc : SinCos) (inp : Inputs) (d : CommandData) (df : Bool)
    (m : Machine) :
    (m.status.mode = Mode.stopped → modeIsActive d.mode = true →
      ISR_MaybeChangeMode m d = ISR_StartCalibrating m ∧
      (ISR_MaybeChangeMode m d).1.status.mode = Mode.enabling ∧
      (ISR_MaybeChangeMode m d).1.ccr1 = 0 ∧
      (ISR_MaybeChangeMode m d).1.ccr2 = 0 ∧
      (ISR_MaybeChangeMode m d).1.ccr3 = 0 ∧
      (ISR_MaybeChangeMode m d).1.driver_powered = false ∧
      (ISR_MaybeChangeMode m d).1.calibrate_adc1 = 0 ∧
      (ISR_MaybeChangeMode m d).1.calibrate_adc2 = 0 ∧
      (ISR_MaybeChangeMode m d).1.calibrate_count = 0) ∧
    (m.status.mode = Mode.enabling →
      (ISR_DoTimer cfg t inp d df m).1.status.mode = Mode.enabling ∨
      (ISR_DoTimer cfg t inp d df m).1.status.mode = Mode.stopped ∨
      (ISR_DoTimer cfg t inp d df m).1.status.mode = Mode.fault) ∧
    (m.status.mode = Mode.enabling →
      (PollMillisecond m).1.status.mode = Mode.calibrating ∧
      (PollMillisecond m).1.driver_enabled = true ∧
      (PollMillisecond m).2 = [Effect.enable true]) ∧
    (m.status.mode ≠ Mode.enabling → PollMillisecond m = (m, [])) ∧
    ((ISR_DoTimer cfg t inp d df m).1.status.mode = Mode.calibrating →
      m.status.mode = Mode.calibrating) ∧
    ((ISR_DoTimer cfg t inp d df m).1.status.mode =
        Mode.calibrationComplete →
      m.status.mode = Mode.calibrating ∨
      m.status.mode = Mode.calibrationComplete) ∧
    ((d.mode = Mode.stopped ∨ modeIsActive d.mode = true) →
      modeIsActive (ISR_DoTimer cfg t inp d df m).1.status.mode = true →
      (m.status.mode = Mode.calibrationComplete ∨
        modeIsActive m.status.mode = true) ∧
      (ISR_DoTimer cfg t inp d df m).1.status.mode = d.mode) ∧
    (m.status.mode = Mode.calibrationComplete →
      modeIsActive d.mode = true → ¬ cfg.max_voltage < m.status.bus_V →
      (ISR_DoControl cfg t sc d false m).1.status.mode = d.mode) := by
  have hsm := ISR_DoSense_mode_cases cfg t inp m
  have master := doControl_mode_cases cfg t
      ⟨t.sin (ISR_DoSense cfg t inp m).status.electrical_theta,
       t.cos (ISR_DoSense cfg t inp m).status.electrical_theta⟩ d df
      (ISR_CalculateCurrentState cfg t
        ⟨t.sin (ISR_DoSense cfg t inp m).status.electrical_theta,
         t.cos (ISR_DoSense cfg t inp m).status.electrical_theta⟩
        (ISR_DoSense cfg t inp m))
  rw [← ISR_DoTimer_eq] at master
  rw [ISR_CalculateCurrentState_mode] at master
  refine ⟨?_, ?_, ?_, ?_, ?_, ?_, ?_, ?_⟩
  · intro hm hda
    have heq : ISR_MaybeChangeMode m d = ISR_StartCalibrating m := by
      cases hd : d.mode <;> simp_all [ISR_MaybeChangeMode, modeIsActive]
    rw [heq]
    exact ⟨rfl, rfl, rfl, rfl, rfl, rfl, rfl, rfl, rfl⟩
  · intro hm
    rcases master with h | ⟨h, _⟩ | ⟨_, h⟩ | ⟨_, _, h⟩ |
      ⟨hsrc, _, _⟩ | ⟨hc, _⟩
    · exact Or.inr (Or.inr h)
    · rcases hsm with h2 | h2
      · exact Or.inl (h.trans (h2.trans hm))
      · exact Or.inr (Or.inr (h.trans h2))
    · exact Or.inr (Or.inl h)
    · exact Or.inl h
    · rcases hsm with h2 | h2 <;> rcases hsrc with h3 | h3
      · exact absurd (h3.symm.trans (h2.trans hm)) (by decide)
      · rw [h2.trans hm] at h3; exact absurd h3 (by decide)
      · exact absurd (h3.symm.trans h2) (by decide)
      · rw [h2] at h3; exact absurd h3 (by decide)
    · rcases hsm with h2 | h2
      · exact absurd (hc.symm.trans (h2.trans hm)) (by decide)
      · exact absurd (hc.symm.trans h2) (by decide)
  · intro hm
    unfold PollMillisecond
    rw [if_pos hm]
    exact ⟨rfl, rfl, rfl⟩
  · intro hm
    unfold PollMillisecond
    rw [if_neg hm]
  · intro hr
    rcases master with h | ⟨h, _⟩ | ⟨_, h⟩ | ⟨_, _, h⟩ |
      ⟨_, hda, h⟩ | ⟨_, h⟩
    · exact absurd (h.symm.trans hr) (by decide)
    · rcases hsm with h2 | h2
      · exact h2.symm.trans (h.symm.trans hr)
      · exact absurd (h2.symm.trans (h.symm.trans hr)) (by decide)
    · exact absurd (h.symm.trans hr) (by decide)
    · exact absurd (h.symm.trans hr) (by decide)
    · rw [h.symm.trans hr] at hda
      exact absurd hda (by decide)
    · exact absurd (h.symm.trans hr) (by decide)
  · intro hr
    rcases master with h | ⟨h, _⟩ | ⟨_, h⟩ | ⟨_, _, h⟩ |
      ⟨_, hda, h⟩ | ⟨hc, h⟩
    · exact absurd (h.symm.trans hr) (by decide)
    · rcases hsm with h2 | h2
      · exact Or.inr (h2.symm.trans (h.symm.trans hr))
      · exact absurd (h2.symm.trans (h.symm.trans hr)) (by decide)
    · exact absurd (h.symm.trans hr) (by decide)
    · exact absurd (h.symm.trans hr) (by decide)
    · rw [h.symm.trans hr] at hda
      exact absurd hda (by decide)
    · rcases hsm with h2 | h2
      · exact Or.inl (h2.symm.trans hc)
      · exact absurd (hc.symm.trans h2) (by decide)
  · intro hd hact
    rcases master with h | ⟨h, tail⟩ | ⟨_, h⟩ | ⟨_, _, h⟩ |
      ⟨hsrc, hda, h⟩ | ⟨_, h⟩
    · rw [h] at hact; exact absurd hact (by decide)
    · rcases hsm with h2 | h2
      · refine ⟨Or.inr ?_, ?_⟩
        · rw [← h2, ← h]; exact hact
        · rcases tail with t1 | t1 | t1 | t1 | t1 | t1 | t1 | t1
          · exact h.trans (h2.trans ((h2.symm.trans t1.symm).symm ▸ rfl))
          · rcases hd with hd | hd
            · exact absurd (hd.symm.trans t1) (by decide)
            · rw [t1] at hd; exact absurd hd (by decide)
          · rcases hd with hd | hd
            · exact absurd (hd.symm.trans t1) (by decide)
            · rw [t1] at hd; exact absurd hd (by decide)
          · rcases hd with hd | hd
            · exact absurd (hd.symm.trans t1) (by decide)
            · rw [t1] at hd; exact absurd hd (by decide)
          · rcases hd with hd | hd
            · exact absurd (hd.symm.trans t1) (by decide)
            · rw [t1] at hd; exact absurd hd (by decide)
          · rw [h.trans t1] at hact; exact absurd hact (by decide)
          · rw [h.trans t1] at hact; exact absurd hact (by decide)
          · rw [h.trans t1] at hact; exact absurd hact (by decide)
      · rw [h.trans h2] at hact; exact absurd hact (by decide)
    · rw [h] at hact; exact absurd hact (by decide)
    · rw [h] at hact; exact absurd hact (by decide)
    · refine ⟨?_, h⟩
      rcases hsm with h2 | h2
      · rcases hsrc with h3 | h3
        · exact Or.inl (h2.symm.trans h3)
        · rw [h2] at h3; exact Or.inr h3
      · rcases hsrc with h3 | h3
        · exact absurd (h3.symm.trans h2) (by decide)
        · rw [h2] at h3; exact absurd h3 (by decide)
    · rw [h] at hact; exact absurd hact (by decide)
  · intro hm hda hbv
    rcases hsp : d.set_position with _ | p <;>
    · simp only [ISR_DoControl, hsp]
      exact doControlCore_adopt cfg t sc _ _ hm hda hbv

/-- C4 witness: a Current command from Stopped enters Enabling with the
driver unpowered, and the foreground poll advances a concrete Enabling
state to Calibrating. -/
theorem c4_stopped_to_active_path_witness :
    (ISR_MaybeChangeMode machine0 (mkCmd Mode.current)).1.status.mode =
      Mode.enabling ∧
    (ISR_MaybeChangeMode machine0
      (mkCmd Mode.current)).1.driver_powered = false ∧
    (PollMillisecond { machine0 with status :=
      { status0 with mode := Mode.enabling } }).1.status.mode =
      Mode.calibrating :=
  ⟨((c4_stopped_to_active_path cfg0 trig0 sc0 inp0 (mkCmd Mode.current)
      false machine0).1 (by decide) (by decide)).2.1,
   ((c4_stopped_to_active_path cfg0 trig0 sc0 inp0 (mkCmd Mode.current)
      false machine0).1 (by decide) (by decide)).2.2.2.2.2.1,
   ((c4_stopped_to_active_path cfg0 trig0 sc0 inp0 (mkCmd Mode.current)
      false { machine0 with status :=
        { status0 with mode := Mode.enabling } }).2.2.1 (by decide)).1⟩

end BldcServo
